import Mathlib

set_option maxRecDepth 4000

/-!
Verification of the LoanVerse loan-origination assistant.

Shallow embedding of the Python sources (`logic.py`, `agents/master.py`,
`agents/negotiator.py`, `agents/verification.py`, `app.py`) into Lean.

Conventions used throughout the embedding:
* Python floats are modelled as exact rationals (`ℚ`); Python float literals
  such as `0.5` or `10.99` become the corresponding exact decimal rational.
* Python `round` (banker's rounding, ties to even) is `pyRound`;
  `round(x, d)` is `pyRoundTo x d`; `int(x)` (truncation toward zero) is
  `pyTrunc`.
* Python strings are Lean `String`s; `needle in hay` is `pyIn`;
  `str.lower()`/`.upper()` are `pyLower`/`pyUpper` (ASCII).
* Dictionary `d.get(k, default)` on optional record fields becomes
  `Option.getD`; for fields the source always populates, plain field access.
* File/CRM lookups (`get_user`) are external collaborators per the spec;
  the underwriting entry point takes the looked-up record (`Option Customer`)
  as an argument.
-/

/-- Python `round` on an exact rational: nearest integer, ties to even. -/
def pyRound (q : ℚ) : ℤ :=
  let f : ℤ := ⌊q⌋
  let frac : ℚ := q - (f : ℚ)
  if frac < 1/2 then f
  else if 1/2 < frac then f + 1
  else if f % 2 = 0 then f else f + 1

/-- Python `round(x, d)`: round to `d` decimal places, ties to even. -/
def pyRoundTo (q : ℚ) (d : ℕ) : ℚ :=
  (pyRound (q * (10 : ℚ) ^ d) : ℚ) / (10 : ℚ) ^ d

/-- Python `int(x)` on a float: truncation toward zero. -/
def pyTrunc (q : ℚ) : ℤ :=
  if 0 ≤ q then ⌊q⌋ else ⌈q⌉

/-- Contiguous-sublist test on character lists. -/
def listInfix (n : List Char) : List Char → Bool
  | [] => n.isEmpty
  | c :: rest => n.isPrefixOf (c :: rest) || listInfix n rest

/-- Python `needle in hay` substring test. -/
def pyIn (needle hay : String) : Bool :=
  listInfix needle.data hay.data

/-- Python `any(flag in msg for flag in flags)`. -/
def anyIn (flags : List String) (msg : String) : Bool :=
  flags.any (fun f => pyIn f msg)

/-- Python `str.lower()` (ASCII range; inputs of interest are ASCII). -/
def pyLowerChar (c : Char) : Char :=
  if 'A' ≤ c ∧ c ≤ 'Z' then Char.ofNat (c.toNat + 32) else c

/-- Python `str.lower()` on a string. -/
def pyLower (s : String) : String :=
  String.mk (s.data.map pyLowerChar)

/-- Python `str.upper()` (ASCII range). -/
def pyUpperChar (c : Char) : Char :=
  if 'a' ≤ c ∧ c ≤ 'z' then Char.ofNat (c.toNat - 32) else c

/-- Python `str.upper()` on a string. -/
def pyUpper (s : String) : String :=
  String.mk (s.data.map pyUpperChar)

/-- Python `s.startswith(p)`, computed on character lists. -/
def pyStartsWith (s p : String) : Bool :=
  List.isPrefixOf p.data s.data

/-- Regex word character class `\w` (ASCII): letters, digits, underscore. -/
def isWordChar (c : Char) : Bool :=
  c.isAlphanum || c = '_'

/-- Regex whitespace class `\s` (ASCII). -/
def isSpaceChar (c : Char) : Bool :=
  c = ' ' || c = '\t' || c = '\n' || c = '\r' || c = '\x0b' || c = '\x0c'

/-- Digits of a decimal digit character. -/
def digitVal (c : Char) : ℕ := c.toNat - '0'.toNat

/-- Numeric value of a list of decimal digit characters (most significant first). -/
def digitsToNat (l : List Char) : ℕ :=
  l.foldl (fun acc c => acc * 10 + digitVal c) 0

/-- Insert a comma after every third character of a reversed digit list. -/
def groupRev : List Char → ℕ → List Char
  | [], _ => []
  | c :: rest, k =>
    if k = 3 then ',' :: groupRev (c :: rest) 0
    else c :: groupRev rest (k + 1)

/-- Python `f-string` format spec `{n:,}` for an integer: thousands commas. -/
def fmtComma (n : ℤ) : String :=
  let sign := if n < 0 then "-" else ""
  let ds := (toString n.natAbs).data
  sign ++ String.mk (groupRev ds.reverse 0).reverse

/-- Python format spec `{q:,.0f}`: round to an integer (ties to even), commas. -/
def fmtComma0 (q : ℚ) : String :=
  fmtComma (pyRound q)

/-- Python format spec `{q:.1f}`: one decimal place, ties to even. -/
def fmtFloat1 (q : ℚ) : String :=
  let m := pyRound (q * 10)
  let sign := if m < 0 then "-" else ""
  let a := m.natAbs
  sign ++ toString (a / 10) ++ "." ++ toString (a % 10)

/-- Decimal digits of a rational in `[0, 1)`, stopping when the remainder is 0
(fuel-bounded; the values formatted in this development terminate well within
the bound). Models CPython `str(float)` for exactly representable decimals. -/
def fracDigits : ℚ → ℕ → String
  | _, 0 => ""
  | q, n + 1 =>
    let q10 := q * 10
    let d : ℤ := ⌊q10⌋
    let r := q10 - (d : ℚ)
    toString d ++ (if r = 0 then "" else fracDigits r n)

/-- Python `str(x)` for a float holding an exact short decimal (for example
`str(13.5) = "13.5"`, `str(15.0) = "15.0"`). -/
def pyStrFloat (q : ℚ) : String :=
  let sign := if q < 0 then "-" else ""
  let a := |q|
  let ip : ℤ := ⌊a⌋
  let fr := a - (ip : ℚ)
  if fr = 0 then sign ++ toString ip ++ ".0"
  else sign ++ toString ip ++ "." ++ fracDigits fr 17

/-! ## logic.py — data layer and pure financial functions -/

/-- Source: `logic.py`, `normalize_phone`. Strips every non-digit, then the
`91` country code (12-digit case) or the trunk `0` (11-digit case). -/
def normalize_phone (phone : String) : String :=
  if phone = "" then ""
  else
    let digits := String.mk (phone.data.filter Char.isDigit)
    if digits.length = 12 && pyStartsWith digits "91" then
      String.mk (digits.data.drop 2)
    else if digits.length = 11 && pyStartsWith digits "0" then
      String.mk (digits.data.drop 1)
    else digits

/-- A record of the mock customer datastore (`customers.json`), as consumed by
`logic.py`. `salary`, `current_emis` and `pan` are read through `.get` with a
default in the source, so they are optional here; the other fields are indexed
directly. -/
structure Customer where
  phone : String
  name : String
  score : ℤ
  limit : ℚ
  salary : Option ℚ
  current_emis : Option ℚ
  pan : Option String
deriving Repr, DecidableEq

/-- Source: `logic.py`, `calculate_emi`. Reducing-balance EMI, rounded to a
whole rupee with Python `round`. Returns 0 for non-positive amount or tenure. -/
def calculate_emi (amount : ℚ) (tenure_months : ℤ) (rate : ℚ) : ℤ :=
  if amount ≤ 0 ∨ tenure_months ≤ 0 then 0
  else
    let r := rate / (12 * 100)
    let n := tenure_months.toNat
    pyRound (amount * r * (1 + r) ^ n / ((1 + r) ^ n - 1))

/-- The exact (pre-rounding) reducing-balance EMI used inside `calculate_emi`. -/
def emiExact (amount : ℚ) (n : ℕ) (rate : ℚ) : ℚ :=
  let r := rate / (12 * 100)
  amount * r * (1 + r) ^ n / ((1 + r) ^ n - 1)

/-- Source: `logic.py`, `calculate_total_interest`. -/
def calculate_total_interest (amount : ℚ) (tenure_months : ℤ) (rate : ℚ) : ℤ :=
  let emi := calculate_emi amount tenure_months rate
  let total_payment := emi * tenure_months
  pyRound ((total_payment : ℚ) - amount)

/-- Source: `logic.py`, `calculate_dti_ratio`. Returns 100.0 when the salary is
non-positive (the division is guarded), otherwise the rounded percentage. -/
def calculate_dti_ratio (monthly_emi current_emis monthly_salary : ℚ) : ℚ :=
  if monthly_salary ≤ 0 then 100
  else
    let total_obligation := monthly_emi + current_emis
    pyRoundTo (total_obligation / monthly_salary * 100) 2

/-- Result record of `calculate_dti_with_existing_loans`. -/
structure DtiResult where
  salary : ℚ
  proposed_emi : ℚ
  current_emis : ℚ
  total_emi : ℚ
  dti : ℚ
  available_income : ℚ
  safe : Bool
deriving Repr, DecidableEq

/-- Source: `logic.py`, `calculate_dti_with_existing_loans`. Note that the
`safe` flag compares the raw (unrounded) DTI with 50 while the reported `dti`
field is rounded to one decimal. -/
def calculate_dti_with_existing_loans (salary proposed_emi current_emis : ℚ) :
    DtiResult :=
  if salary ≤ 0 then
    { salary := salary, proposed_emi := proposed_emi, current_emis := current_emis
      total_emi := proposed_emi + current_emis, dti := 100
      available_income := 0, safe := false }
  else
    let total_emi := proposed_emi + current_emis
    let dti := total_emi / salary * 100
    { salary := salary, proposed_emi := proposed_emi, current_emis := current_emis
      total_emi := total_emi, dti := pyRoundTo dti 1
      available_income := salary - total_emi, safe := decide (dti < 50) }

/-- Source: `logic.py`, `calculate_safe_amount`. Maximum principal from the
50 % EMI headroom, scaled to a multiple of ₹10,000 with Python `round`
(ties to even) — that is, to the NEAREST multiple. -/
def calculate_safe_amount (salary current_emis rate : ℚ) (tenure : ℕ) : ℤ :=
  let max_safe_emi := salary * (1/2) - current_emis
  if max_safe_emi ≤ 0 then 0
  else
    let r := rate / (12 * 100)
    let numerator := (1 + r) ^ tenure - 1
    let denominator := r * (1 + r) ^ tenure
    let safe_amount := max_safe_emi * (numerator / denominator)
    pyRound (safe_amount / 10000) * 10000

/-- The exact safe principal computed inside `calculate_safe_amount` before the
₹10,000 scaling. -/
def safeAmountExact (salary current_emis rate : ℚ) (tenure : ℕ) : ℚ :=
  let max_safe_emi := salary * (1/2) - current_emis
  let r := rate / (12 * 100)
  max_safe_emi * (((1 + r) ^ tenure - 1) / (r * (1 + r) ^ tenure))

/-- Source: `logic.py`, `get_risk_based_rate`. Tiered risk-based pricing. -/
def get_risk_based_rate (credit_score : ℤ) : ℚ :=
  if credit_score ≥ 800 then 10.50
  else if credit_score ≥ 750 then 11.50
  else if credit_score ≥ 700 then 13.50
  else 15.00

/-! ## Regex-scanner helpers

The Python sources use `re.search`/`re.finditer` with a handful of concrete
patterns.  Each pattern is embedded as a hand-rolled scanner over `List Char`
with the same leftmost-match semantics; greedy sub-matches whose only viable
backtracking alternatives provably fail (because the follow-set is disjoint)
are taken maximally, and the genuine backtracking points (optional fraction
dot, one/two-digit age, `lakh`/`l` alternation) are tried in regex order via
`Option.orElse`. -/

/-- Leftmost search: try the position matcher at every suffix. -/
def scanOpt (f : List Char → Option α) : List Char → Option α
  | [] => f []
  | c :: rest => (f (c :: rest)).orElse (fun _ => scanOpt f rest)

/-- Leftmost search with a look-behind character (for `\b`). -/
def scanOptB (f : Option Char → List Char → Option α) :
    Option Char → List Char → Option α
  | prev, [] => f prev []
  | prev, c :: rest => (f prev (c :: rest)).orElse (fun _ => scanOptB f (some c) rest)

/-- Leftmost boolean search with a look-behind character. -/
def scanB (f : Option Char → List Char → Bool) : Option Char → List Char → Bool
  | prev, [] => f prev []
  | prev, c :: rest => f prev (c :: rest) || scanB f (some c) rest

/-- Word boundary `\b` test against the preceding character. -/
def boundaryBefore : Option Char → Bool
  | none => true
  | some c => !isWordChar c

/-- The token `u` matches at the head of `r` and is followed by `\b`. -/
def unitWithBoundary (u : String) (r : List Char) : Bool :=
  List.isPrefixOf u.data r &&
  (match r.drop u.length with
   | [] => true
   | c :: _ => !isWordChar c)

/-- Value of the decimal literal `intPart "." fracPart`. -/
def parseDecimal (intPart fracPart : List Char) : ℚ :=
  (digitsToNat intPart : ℚ) + (digitsToNat fracPart : ℚ) / (10 : ℚ) ^ fracPart.length

/-- Python `str.strip()` (ASCII whitespace). -/
def pyStrip (s : String) : String :=
  String.mk (((s.data.dropWhile isSpaceChar).reverse.dropWhile isSpaceChar).reverse)

/-- First whitespace-separated token, Python `s.split()[0]`. CPython raises
`IndexError` on an all-whitespace string; that out-of-domain case is modelled
as the empty string. -/
def pyFirstWord (s : String) : String :=
  String.mk ((s.data.dropWhile isSpaceChar).takeWhile (fun c => !isSpaceChar c))

/-! ## agents/master.py — MasterAgent -/

namespace MasterAgent

/-- Source: `master.py`, `extract_amount`, the `word_to_num` table
(insertion order preserved). -/
def word_to_num : List (String × ℚ) :=
  [("one", 1), ("two", 2), ("three", 3), ("four", 4), ("five", 5),
   ("six", 6), ("seven", 7), ("eight", 8), ("nine", 9), ("ten", 10),
   ("fifty", 50), ("hundred", 100),
   ("ek", 1), ("do", 2), ("teen", 3), ("char", 4), ("paanch", 5), ("panch", 5),
   ("chhe", 6), ("saat", 7), ("aath", 8), ("nau", 9), ("das", 10),
   ("dedh", 1.5), ("dhai", 2.5), ("sawa", 1.25), ("paune", 0.75)]

/-- Source: `master.py`, `extract_amount`, the `multipliers` table. -/
def multipliers : List (String × ℚ) :=
  [("thousand", 1000), ("hajar", 1000), ("hazaar", 1000), ("k", 1000),
   ("lakh", 100000), ("lac", 100000), ("l", 100000), ("peti", 100000),
   ("crore", 10000000), ("cr", 10000000), ("khokha", 10000000)]

/-- Rule 1 of `extract_amount`: the compound pattern
`(\d+)\s*(?:lakh|l)\s*(\d+)\s*(?:thousand|k)` tried at one position. -/
def compoundAt (l : List Char) : Option ℚ :=
  let d1 := l.takeWhile Char.isDigit
  if d1.isEmpty then none
  else
    let r2 := (l.dropWhile Char.isDigit).dropWhile isSpaceChar
    let cont : List Char → Option ℚ := fun r3 =>
      let r4 := r3.dropWhile isSpaceChar
      let d2 := r4.takeWhile Char.isDigit
      if d2.isEmpty then none
      else
        let r6 := (r4.dropWhile Char.isDigit).dropWhile isSpaceChar
        if List.isPrefixOf "thousand".data r6 || List.isPrefixOf "k".data r6 then
          some ((digitsToNat d1 : ℚ) * 100000 + (digitsToNat d2 : ℚ) * 1000)
        else none
    (if List.isPrefixOf "lakh".data r2 then cont (r2.drop 4) else none).orElse
      (fun _ => if List.isPrefixOf "l".data r2 then cont (r2.drop 1) else none)

/-- Rule 2 and rule 4 word pattern `\b<word>\s+<unit>\b` tried at one
position with look-behind. -/
def wordUnitAt (word unit : String) (prev : Option Char) (l : List Char) : Bool :=
  boundaryBefore prev &&
  List.isPrefixOf word.data l &&
  (match l.drop word.length with
   | [] => false
   | c :: _ =>
     isSpaceChar c &&
     unitWithBoundary unit ((l.drop word.length).dropWhile isSpaceChar))

/-- Rule 2 of `extract_amount`: word-number and unit-word combinations, in
table iteration order, skipping single-letter units. -/
def rule2 (l : List Char) : Option ℚ :=
  word_to_num.findSome? (fun wn =>
    multipliers.findSome? (fun um =>
      if um.1.length = 1 then none
      else if scanB (wordUnitAt wn.1 um.1) none l then some (wn.2 * um.2)
      else none))

/-- The three digit-plus-unit patterns of rule 3, each with its multiplier. -/
def unitPatterns : List (List String × ℚ) :=
  [(["cr", "crore", "crores", "khokha"], 10000000),
   (["l", "lakh", "lakhs", "lac", "lacs", "peti"], 100000),
   (["k", "thousand", "thousands", "hajar", "hazaar"], 1000)]

/-- Rule 3 number-plus-unit pattern `(\d+\.?\d*)\s*(<units>)\b` tried at one
position; returns the numeric value of group 1 on a match. -/
def digitUnitAt (units : List String) (l : List Char) : Option ℚ :=
  let d1 := l.takeWhile Char.isDigit
  if d1.isEmpty then none
  else
    let r1 := l.dropWhile Char.isDigit
    let attempt : ℚ → List Char → Option ℚ := fun num r =>
      let r2 := r.dropWhile isSpaceChar
      if units.any (fun u => unitWithBoundary u r2) then some num else none
    match r1 with
    | '.' :: r2 =>
      let fr := r2.takeWhile Char.isDigit
      (attempt (parseDecimal d1 fr) (r2.dropWhile Char.isDigit)).orElse
        (fun _ => attempt (parseDecimal d1 []) r1)
    | _ => attempt (parseDecimal d1 []) r1

/-- Source: `master.py`, `extract_amount`, the `MAX_LOAN_AMOUNT` cap. -/
def MAX_LOAN_AMOUNT : ℚ := 10000000

/-- Rule 3 of `extract_amount`: the three digit-plus-unit regexes tried in
order, the extracted amount capped at `MAX_LOAN_AMOUNT`. -/
def rule3 (l : List Char) : Option ℚ :=
  unitPatterns.findSome? (fun pm =>
    (scanOpt (digitUnitAt pm.1) l).map (fun num =>
      let amount := num * pm.2
      if amount > MAX_LOAN_AMOUNT then MAX_LOAN_AMOUNT else amount))

/-- Rule 4 of `extract_amount`: `\b<word>\s+thousand\b`. -/
def rule4 (l : List Char) : Option ℚ :=
  word_to_num.findSome? (fun wn =>
    if scanB (wordUnitAt wn.1 "thousand") none l then some (wn.2 * 1000) else none)

/-- Rule 5 of `extract_amount`: the "one and half" idiom. -/
def rule5 (msg : String) : Option ℚ :=
  if pyIn "one and half" msg || pyIn "and half" msg then
    if pyIn "lakh" msg || pyIn "lac" msg then some (1.5 * 100000)
    else if pyIn "crore" msg || pyIn "cr" msg then some (1.5 * 10000000)
    else none
  else none

/-- Rule 6 pattern A: `(?:inr|rs|₹)\.?\s*(\d+)` tried at one position. -/
def currencyAt (l : List Char) : Option ℚ :=
  let tryPrefix : String → Option (List Char) := fun p =>
    if List.isPrefixOf p.data l then some (l.drop p.length) else none
  let cont2 : List Char → Option ℚ := fun r2 =>
    let r3 := r2.dropWhile isSpaceChar
    let ds := r3.takeWhile Char.isDigit
    if ds.isEmpty then none else some (digitsToNat ds : ℚ)
  let cont : List Char → Option ℚ := fun r =>
    match r with
    | '.' :: t => (cont2 t).orElse (fun _ => cont2 r)
    | _ => cont2 r
  ((tryPrefix "inr").bind cont).orElse (fun _ =>
    ((tryPrefix "rs").bind cont).orElse (fun _ =>
      (tryPrefix "₹").bind cont))

/-- State for collecting the maximal digit runs of rule 6 pattern B. -/
structure RunState where
  prevWord : Bool
  cur : List Char
  runs : List (List Char)

/-- Collect the maximal digit runs of a string that are bounded by word
boundaries on both sides (the matches of `\b(\d+)\b`), leftmost first.
`cur` holds the currently open run in reverse. -/
def digitRunsStep (st : RunState) (c : Char) : RunState :=
  if c.isDigit then
    if !st.cur.isEmpty then { st with cur := c :: st.cur }
    else if !st.prevWord then { st with cur := [c], prevWord := true }
    else { st with prevWord := true }
  else if st.cur.isEmpty then { st with prevWord := isWordChar c }
  else if isWordChar c then { prevWord := true, cur := [], runs := st.runs }
  else { prevWord := false, cur := [], runs := st.runs ++ [st.cur.reverse] }

/-- All `\b`-delimited digit runs of `l`, in order of appearance. -/
def digitRuns (l : List Char) : List (List Char) :=
  let fin := l.foldl digitRunsStep { prevWord := false, cur := [], runs := [] }
  if fin.cur.isEmpty then fin.runs else fin.runs ++ [fin.cur.reverse]

/-- Rule 6 pattern B: iterate the `\b(\d{5,})\b` matches, skipping 10-digit
phone-shaped numbers, capping the first remaining one at the maximum. -/
def plainNumber (l : List Char) : Option ℚ :=
  ((digitRuns l).filter (fun run => run.length ≥ 5)).findSome? (fun run =>
    if run.length = 10 && (run.head?.elim false (fun c => c ∈ ['6', '7', '8', '9']))
    then none
    else if (digitsToNat run : ℚ) > MAX_LOAN_AMOUNT then some MAX_LOAN_AMOUNT
    else some (digitsToNat run : ℚ))

/-- Rule 7 of `extract_amount`: fixed Hindi loan phrases defaulting to ₹5 L. -/
def hindi_loan_phrases : List String :=
  ["paisa chahiye", "loan chahiye", "udhar chahiye",
   "paise chahiye", "help loan", "need loan"]

/-- Source: `master.py`, `MasterAgent.extract_amount`. The seven extraction
rules in source order; `none` models Python `None`. -/
def extract_amount (user_message : String) : Option ℚ :=
  let msg := pyLower user_message
  let l := msg.data
  (scanOpt compoundAt l).orElse (fun _ =>
  (rule2 l).orElse (fun _ =>
  (rule3 l).orElse (fun _ =>
  (rule4 l).orElse (fun _ =>
  (rule5 msg).orElse (fun _ =>
    let clean := l.filter (fun c => c ≠ ',')
    (scanOpt currencyAt clean).orElse (fun _ =>
    (plainNumber clean).orElse (fun _ =>
      if anyIn hindi_loan_phrases msg then some 500000 else none)))))))

/-- The `master.py` source file is stored double-encoded; its alert strings
literally begin with the six characters below (mojibake of a warning sign). -/
def alertPrefix : String := "‚ö†Ô∏è"

/-- Source: `master.py`, `enforce_compliance`, coercion red-flag list. -/
def coercion_flags : List String :=
  ["my husband", "my wife", "forcing me", "help someone else",
   "commission", "my boss", "someone else", "for my friend",
   "making me", "told me to"]

/-- Source: `master.py`, `enforce_compliance`, fraud red-flag list. -/
def fraud_flags : List String :=
  ["fake", "forge", "forged", "fabricate", "false salary",
   "false document", "edit the pdf", "edit pdf", "edit document",
   "fake pan", "fake id"]

/-- Source: `master.py`, `enforce_compliance`, bribery red-flag list. -/
def bribery_flags : List String :=
  ["pay you extra", "bribe", "extra money for you", "i\x27ll pay you",
   "give you something", "reward you", "tip you", "pay extra",
   "money for approval", "commission for you", "extra for approval"]

/-- Age pattern `\b(\d{1,2})\s*(?:years|yrs)\s*old` continuation after the
digits have been read. -/
def ageCont (age : ℕ) (r : List Char) : Option ℕ :=
  let r1 := r.dropWhile isSpaceChar
  let afterUnit : Option (List Char) :=
    if List.isPrefixOf "years".data r1 then some (r1.drop 5)
    else if List.isPrefixOf "yrs".data r1 then some (r1.drop 3)
    else none
  afterUnit.bind (fun r2 =>
    if List.isPrefixOf "old".data (r2.dropWhile isSpaceChar) then some age else none)

/-- Age pattern tried at one position (greedy two digits, then one). -/
def ageAt (prev : Option Char) (l : List Char) : Option ℕ :=
  if boundaryBefore prev then
    match l with
    | c1 :: rest =>
      if c1.isDigit then
        (match rest with
         | c2 :: rest2 =>
           if c2.isDigit then ageCont (10 * digitVal c1 + digitVal c2) rest2 else none
         | [] => none).orElse
          (fun _ => ageCont (digitVal c1) rest)
      else none
    | [] => none
  else none

/-- Source: `master.py`, `MasterAgent.enforce_compliance` — the compliance
guardrail ("Mule Hunter").  Returns the hard-stop alert for the first matching
red-flag category, `none` when the message is clean. -/
def enforce_compliance (user_message : String) : Option String :=
  let msg := pyLower user_message
  if anyIn coercion_flags msg then
    some (alertPrefix ++ " **Compliance Alert:** For your security, personal loans can strictly only be taken for your own use. I cannot proceed with this application.")
  else if anyIn fraud_flags msg then
    some (alertPrefix ++ " **Compliance Alert:** I cannot assist with any fraudulent documentation. This violates our lending policies and legal regulations.")
  else if anyIn bribery_flags msg then
    some (alertPrefix ++ " **Compliance Alert:** I cannot accept any bribes, tips, or extra payments. All loan decisions are made by our automated underwriting system based purely on creditworthiness.")
  else if anyIn ["bitcoin", "crypto", "usdt", "eth", "btc"] msg then
    some (alertPrefix ++ " **Policy Alert:** We do not accept cryptocurrency for EMI payments or loan disbursements. Only Indian Rupees (INR) via banking channels are supported.")
  else
    match scanOptB ageAt none msg.data with
    | some age =>
      if age < 18 then
        some (alertPrefix ++ " **Eligibility Alert:** You must be at least 21 years old to apply for a loan. We cannot proceed.")
      else none
    | none => none

end MasterAgent

/-! ## agents/negotiator.py — NegotiatorAgent

The tier templates are reproduced text-for-text.  Numeric interpolations use
the format helpers above over exact rationals; session numbers originate as
JSON integers, and the bare `{x:,}` spec is rendered as integer
comma-grouping for integral values (see `fmtCommaNum`). -/

/-- Python format spec `{q:,}` for a numeric value that is integral in every
reachable state (JSON integers); non-integral values fall back to a truncated
decimal rendering. -/
def fmtCommaNum (q : ℚ) : String :=
  if q.den = 1 then fmtComma q.num
  else fmtComma (pyTrunc q) ++ "." ++ fracDigits (|q| - (⌊|q|⌋ : ℚ)) 17

namespace NegotiatorAgent

/-- The context dictionary handed to the negotiator by the phase handlers in
`app.py` (keys `customer_name` … `purpose` are always present there; `emi`
and `tenure` are absent and read through `.get` defaults in `_tier_emi`). -/
structure NegotiationContext where
  customer_name : String
  credit_score : ℤ
  rate : Option ℚ
  requested : ℚ
  approved : ℚ
  salary : ℚ
  current_emis : ℚ
  purpose : String
  emi : Option ℤ
  tenure : Option ℤ
deriving Repr, DecidableEq

/-- Source: `negotiator.py`, `_RATE_SIGNALS`. -/
def RATE_SIGNALS : List String :=
  ["rate", "interest", "percent",
   "too high", "expensive", "costly", "reduce rate", "lower rate",
   "better rate", "discount", "cheap", "less interest", "better deal",
   "other bank", "competitor", "market rate", "rbi rate"]

/-- Source: `negotiator.py`, `_AMOUNT_SIGNALS`. -/
def AMOUNT_SIGNALS : List String :=
  ["more money", "need more", "want more", "full amount", "complete amount",
   "not enough", "increase", "raise", "higher amount", "can you give more",
   "not fair", "why limit", "why 6", "why so less", "too low", "maximum",
   "max out", "stretch", "full 8", "full 7", "full 10", "entire amount",
   "whole amount", "reconsider", "reviewed again"]

/-- Source: `negotiator.py`, `_EMI_SIGNALS`. -/
def EMI_SIGNALS : List String :=
  ["emi", "monthly", "installment", "instalment", "payment", "per month",
   "afford", "burden", "too much", "reduce emi", "lower emi", "small emi",
   "less emi", "stretch tenure", "more months", "longer period", "extend",
   "flexible", "can i pay less", "smaller payment"]

/-- Source: `negotiator.py`, the `pure_accept` set in
`detect_negotiation_intent` (set membership, so iteration order is moot). -/
def pure_accept : List String :=
  ["yes", "ok", "okay", "sure", "confirm", "proceed",
   "go ahead", "yep", "yeah", "fine", "done", "agreed",
   "accept", "sounds good", "alright", "great"]

/-- Source: `negotiator.py`, the `challenge_words` list. -/
def challenge_words : List String :=
  ["why", "how", "can", "could", "please", "need", "want",
   "reduce", "lower", "not", "don\x27t", "too", "is it", "what",
   "better", "less", "more", "high", "much"]

/-- Source: `negotiator.py`, `NegotiatorAgent.detect_negotiation_intent`.
Returns `RATE`, `AMOUNT`, `EMI` or `none`; pure acceptances and messages of
three characters or fewer never trigger; a challenge word is required; EMI
signals are checked before rate and amount signals. -/
def detect_negotiation_intent (user_input : String) : Option String :=
  let msg := pyStrip (pyLower user_input)
  if pure_accept.contains msg || msg.length ≤ 3 then none
  else if !(anyIn challenge_words msg) then none
  else if (EMI_SIGNALS.filter (fun s => s ∉ ["more", "maximum", "raise"])).any
            (fun s => pyIn s msg) then some "EMI"
  else if RATE_SIGNALS.any (fun s => pyIn s msg) then some "RATE"
  else if AMOUNT_SIGNALS.any (fun s => pyIn s msg) then some "AMOUNT"
  else none

/- Source: `negotiator.py`, `_tier_rate`. Rate-objection ladder tiers. -/
/-- Trailing part of the attempt-0 template of `_tier_rate` (`negotiator.py`),
everything after the fixed opening phrase (split off so that the fixed
opening stays syntactically visible for the distinctness proofs). -/
def tier_rate_rest0 (ctx : NegotiationContext) : String :=
  let name := pyFirstWord ctx.customer_name
  let rate : ℚ := match ctx.rate with
    | some r => if r = 0 then 13.5 else r
    | none => 13.5
  let score := ctx.credit_score
  let amount := ctx.approved
  name ++ " — nobody wants to pay more than they have to! " ++
  "Let me be fully transparent about how your rate is set. 💡\n\n" ++
  "**How your " ++ pyStrFloat rate ++ "% rate is calculated:**\n" ++
  "- Your CIBIL score is **" ++ toString score ++ "/900** — this determines your risk tier\n" ++
  "- RBI guidelines mandate NBFCs use risk-based pricing\n" ++
  "- Our rate tiers: 800+ → 10.5% | 750–799 → 11.5% | 700–749 → 13.5% | Below 700 → 15%\n\n" ++
  "**Market comparison:**\n" ++
  "- Major nationalized banks: 13–17% p.a. for personal loans\n" ++
  "- Other NBFCs: 14–24% p.a.\n" ++
  "- Gold loans: 14–18% p.a.\n\n" ++
  "Your rate of **" ++ pyStrFloat rate ++ "%** is already at the **lower end of the market** for your profile. " ++
  "Plus, we\x27ve waived the processing fee (typically ₹1,499–₹5,000 elsewhere), " ++
  "saving you real money upfront. 🎯\n\n" ++
  "Would you like to proceed, or shall I show you the total cost comparison?"

/-- Trailing part of the attempt-1 template of `_tier_rate` (`negotiator.py`),
everything after the fixed opening phrase (split off so that the fixed
opening stays syntactically visible for the distinctness proofs). -/
def tier_rate_rest1 (ctx : NegotiationContext) : String :=
  let name := pyFirstWord ctx.customer_name
  let rate : ℚ := match ctx.rate with
    | some r => if r = 0 then 13.5 else r
    | none => 13.5
  let score := ctx.credit_score
  let amount := ctx.approved
  let credit_improve_score := min (score + 50) 900
  let improved_rate := max (rate - 1.0) 10.5
  name ++ ", and I genuinely want to help you get the best deal. " ++
  "Let me share two paths that could work in your favour. 🛤️\n\n" ++
  "**Option A — Credit Score Improvement Plan:**\n" ++
  "Your score is currently " ++ toString score ++ ". With a few targeted actions over 3–6 months:\n" ++
  "- Pay all existing EMIs on time → +20–30 points\n" ++
  "- Keep credit utilisation below 30% → +15–20 points\n" ++
  "- Avoid new credit inquiries → +10 points\n" ++
  "- Projected score: ~" ++ toString credit_improve_score ++ " → **rate drops to " ++ pyStrFloat improved_rate ++ "%**\n\n" ++
  "**Option B — Proceed now at " ++ pyStrFloat rate ++ "%:**\n" ++
  "The difference on ₹" ++ fmtComma0 amount ++ ":\n" ++
  "- At " ++ pyStrFloat rate ++ "%: ₹" ++ fmtComma (pyTrunc (amount * rate / 1200)) ++ "/month interest component\n" ++
  "- At " ++ pyStrFloat improved_rate ++ "%: ₹" ++ fmtComma (pyTrunc (amount * improved_rate / 1200)) ++ "/month interest component\n" ++
  "- Monthly saving: ₹" ++ fmtComma (pyTrunc (amount * (rate - improved_rate) / 1200)) ++ "\n\n" ++
  "For most customers, the opportunity cost of **waiting 6 months** outweighs the small rate difference. " ++
  "But the choice is entirely yours. Which makes more sense for your situation?"

/-- Trailing part of the attempt-2 template of `_tier_rate` (`negotiator.py`),
everything after the fixed opening phrase (split off so that the fixed
opening stays syntactically visible for the distinctness proofs). -/
def tier_rate_rest2 (ctx : NegotiationContext) : String :=
  let name := pyFirstWord ctx.customer_name
  let rate : ℚ := match ctx.rate with
    | some r => if r = 0 then 13.5 else r
    | none => 13.5
  let score := ctx.credit_score
  let amount := ctx.approved
  name ++ " — you drive a hard bargain! 😄 Here\x27s our absolute best offer:\n\n" ++
  "**🎁 Special Rate Lock Package (Limited Time):**\n" ++
  "1. **Rate locked at " ++ pyStrFloat rate ++ "%** for the next **30 days** — no revision risk\n" ++
  "2. **Zero processing fee** (₹0) — vs. market average of ₹3,000–₹5,000\n" ++
  "3. **Complimentary rate review** eligibility after 12 on-time EMIs — " ++
  "if your score improves, we\x27ll formally reconsider a rate reduction\n" ++
  "4. **Zero pre-closure penalty** — pay off early without any charges\n\n" ++
  "Combined, these benefits are worth ₹5,000–₹8,000 in real savings. " ++
  "This is the maximum flexibility I can offer you today, " ++ name ++ ". 🤝\n\n" ++
  "If you\x27d still like to explore further options, I can connect you with " ++
  "our **Senior Loan Advisor** who may have additional discretionary authority. " ++
  "Would you like me to do that, or shall we proceed with this package?"

def tier_rate (ctx : NegotiationContext) (attempt : ℕ) : String :=
  if attempt = 0 then "I completely understand, " ++ tier_rate_rest0 ctx
  else if attempt = 1 then "I hear you, " ++ tier_rate_rest1 ctx
  else "Alright, " ++ tier_rate_rest2 ctx

/- Source: `negotiator.py`, `_tier_amount`. Amount-objection ladder tiers. -/
/-- Trailing part of the attempt-0 template of `_tier_amount` (`negotiator.py`),
everything after the fixed opening phrase (split off so that the fixed
opening stays syntactically visible for the distinctness proofs). -/
def tier_amount_rest0 (ctx : NegotiationContext) : String :=
  let name := pyFirstWord ctx.customer_name
  let requested := ctx.requested
  let approved := ctx.approved
  let salary := ctx.salary
  let emis := ctx.current_emis
  let purpose := ctx.purpose
  let max_emi_capacity := salary * 0.5
  let dti_at_requested := ((requested / 36) * 0.01135 + requested / 36) / salary * 100
  name ++ " — " ++
  "₹" ++ fmtComma0 requested ++ " for " ++ purpose ++ " is a totally legitimate ask. " ++
  "Let me show you exactly why the number is what it is. 📊\n\n" ++
  "**Your Affordability Math (RBI DTI Rule):**\n" ++
  "- Monthly take-home salary: **₹" ++ fmtCommaNum salary ++ "**\n" ++
  "- Existing EMI commitments: **₹" ++ fmtCommaNum emis ++ "**\n" ++
  "- Available EMI capacity (50% of salary): **₹" ++ fmtComma0 max_emi_capacity ++ "**\n" ++
  "- After existing EMIs: **₹" ++ fmtComma0 (max_emi_capacity - emis) ++ "** free capacity\n\n" ++
  "An EMI for ₹" ++ fmtComma0 requested ++ " at 36 months would need ~₹" ++
  fmtComma (pyTrunc (requested / 36 * 1.135)) ++ "/month, " ++
  "which pushes your DTI to **~" ++ fmtFloat1 (min dti_at_requested 99) ++ "%** — above the **50% RBI ceiling**.\n\n" ++
  "The ₹" ++ fmtComma0 approved ++ " limit keeps you safely at or below 50%, " ++
  "which actually **protects your credit score** and prevents over-leveraging. 🛡️\n\n" ++
  "Shall we proceed with ₹" ++ fmtComma0 approved ++ ", or explore an alternative path?"

/-- Trailing part of the attempt-1 template of `_tier_amount` (`negotiator.py`),
everything after the fixed opening phrase (split off so that the fixed
opening stays syntactically visible for the distinctness proofs). -/
def tier_amount_rest1 (ctx : NegotiationContext) : String :=
  let name := pyFirstWord ctx.customer_name
  let requested := ctx.requested
  let approved := ctx.approved
  let salary := ctx.salary
  let emis := ctx.current_emis
  let purpose := ctx.purpose
  let max_emi_capacity := salary * 0.5
  name ++ ". Let me offer you two concrete paths to get closer to what you need. 🔑\n\n" ++
  "**Path 1 — Salary Slip Verification:**\n" ++
  "If you upload your latest 3-month salary slip, I can run an enhanced underwriting check. " ++
  "If your declared salary is confirmed at or above ₹" ++ fmtCommaNum salary ++ ", " ++
  "I may be able to approve up to **₹" ++ fmtComma0 (min requested (approved * 1.5)) ++ "** " ++
  "under our Conditional Approval scheme.\n\n" ++
  "**Path 2 — Co-Borrower Addition:**\n" ++
  "If you add a co-borrower (spouse, parent, sibling) with their income, " ++
  "the combined DTI calculation could unlock the full **₹" ++ fmtComma0 requested ++ "**. " ++
  "Many of our customers use this for large loan requirements.\n\n" ++
  "**Path 3 — Split into Two Products:**\n" ++
  "Take ₹" ++ fmtComma0 approved ++ " as a personal loan now, and apply for the remaining " ++
  "₹" ++ fmtComma0 (requested - approved) ++ " as a separate product (home improvement loan, " ++
  "credit line) 3–4 months from now once your DTI improves.\n\n" ++
  "Which of these paths sounds workable for your situation?"

/-- Trailing part of the attempt-2 template of `_tier_amount` (`negotiator.py`),
everything after the fixed opening phrase (split off so that the fixed
opening stays syntactically visible for the distinctness proofs). -/
def tier_amount_rest2 (ctx : NegotiationContext) : String :=
  let name := pyFirstWord ctx.customer_name
  let requested := ctx.requested
  let approved := ctx.approved
  let salary := ctx.salary
  let emis := ctx.current_emis
  let purpose := ctx.purpose
  let max_emi_capacity := salary * 0.5
  let partial_increase := min requested ((pyTrunc (approved * 1.15) : ℚ))
  name ++ " — here\x27s my absolute final offer before I pass you to my senior colleague. " ++
  "I\x27ve done a manual override review and this is what I can table:\n\n" ++
  "**🔖 Negotiated Terms — Final Offer:**\n" ++
  "- Approved amount: **₹" ++ fmtComma0 partial_increase ++ "** (vs. original ₹" ++ fmtComma0 approved ++ ")\n" ++
  "- Condition: Upload salary slip to confirm income ≥ ₹" ++ fmtCommaNum salary ++ "\n" ++
  "- Tenure: 48 months (to keep EMI manageable)\n" ++
  "- All other terms unchanged\n\n" ++
  "This is ₹" ++ fmtComma0 (partial_increase - approved) ++ " more than the standard offer " ++
  "and is the maximum I\x27m authorised to clear at this level. 🤝\n\n" ++
  "If this still doesn\x27t meet your requirement, I\x27d recommend speaking with our " ++
  "**Senior Relationship Manager** who has discretionary authority for higher limits. " ++
  "Shall I connect you, or would you like to accept this enhanced offer?"

def tier_amount (ctx : NegotiationContext) (attempt : ℕ) : String :=
  if attempt = 0 then "I completely relate to your need for the full amount, " ++ tier_amount_rest0 ctx
  else if attempt = 1 then "I respect your position, " ++ tier_amount_rest1 ctx
  else "Alright, " ++ tier_amount_rest2 ctx

/- Source: `negotiator.py`, `_tier_emi`. EMI/tenure-objection ladder tiers. -/
/-- Trailing part of the attempt-0 template of `_tier_emi` (`negotiator.py`),
everything after the fixed opening phrase (split off so that the fixed
opening stays syntactically visible for the distinctness proofs). -/
def tier_emi_rest0 (ctx : NegotiationContext) : String :=
  let name := pyFirstWord ctx.customer_name
  let emi := ctx.emi.getD 0
  let tenure := ctx.tenure.getD 36
  let amount := ctx.approved
  let rate : ℚ := match ctx.rate with
    | some r => if r = 0 then 13.5 else r
    | none => 13.5
  let salary := ctx.salary
  let tenure_60_emi := pyTrunc (amount * (rate / 1200) / (1 - ((1 + rate / 1200) ^ (60 : ℕ))⁻¹))
  let tenure_84_emi := pyTrunc (amount * (rate / 1200) / (1 - ((1 + rate / 1200) ^ (84 : ℕ))⁻¹))
  name ++ " — monthly cash flow is everything! " ++
  "Let me show you how the EMI changes with different tenures. 📅\n\n" ++
  "**EMI options for ₹" ++ fmtComma0 amount ++ " at " ++ pyStrFloat rate ++ "%:**\n" ++
  "| Tenure | Monthly EMI | Total Interest |\n" ++
  "|--------|------------|----------------|\n" ++
  "| " ++ toString tenure ++ " months (current) | **₹" ++ fmtComma emi ++ "** | ₹" ++
  fmtComma (pyTrunc ((emi * tenure : ℤ) - amount)) ++ " |\n" ++
  "| 60 months | **₹" ++ fmtComma tenure_60_emi ++ "** | ₹" ++
  fmtComma (pyTrunc ((tenure_60_emi * 60 : ℤ) - amount)) ++ " |\n" ++
  "| 84 months | **₹" ++ fmtComma tenure_84_emi ++ "** | ₹" ++
  fmtComma (pyTrunc ((tenure_84_emi * 84 : ℤ) - amount)) ++ " |\n\n" ++
  "Extending to **60 months** reduces your EMI by ₹" ++ fmtComma (emi - tenure_60_emi) ++ "/month — " ++
  "that\x27s extra breathing room every month. 💨\n\n" ++
  "You do pay slightly more total interest, but you avoid any cash flow stress. " ++
  "Which tenure feels right for your budget?"

/-- Trailing part of the attempt-1 template of `_tier_emi` (`negotiator.py`),
everything after the fixed opening phrase (split off so that the fixed
opening stays syntactically visible for the distinctness proofs). -/
def tier_emi_rest1 (ctx : NegotiationContext) : String :=
  let name := pyFirstWord ctx.customer_name
  let emi := ctx.emi.getD 0
  let tenure := ctx.tenure.getD 36
  let amount := ctx.approved
  let rate : ℚ := match ctx.rate with
    | some r => if r = 0 then 13.5 else r
    | none => 13.5
  let salary := ctx.salary
  let tenure_60_emi := pyTrunc (amount * (rate / 1200) / (1 - ((1 + rate / 1200) ^ (60 : ℕ))⁻¹))
  name ++ ". There are two more ways to reduce the burden further. 💡\n\n" ++
  "**Strategy 1 — Maximum Tenure Extension (84 months):**\n" ++
  "- Monthly EMI drops to: **₹" ++
  fmtComma (pyTrunc (amount * (rate / 1200) / (1 - ((1 + rate / 1200) ^ (84 : ℕ))⁻¹))) ++ "**\n" ++
  "- That\x27s your absolute lowest possible monthly commitment\n" ++
  "- Pre-close any time after 6 EMIs with zero penalty\n\n" ++
  "**Strategy 2 — Step-Up EMI Plan:**\n" ++
  "- Start at a lower EMI now, step up by 5–10% annually as your income grows\n" ++
  "- Many of our salaried customers get annual increments — this plan rides along\n\n" ++
  "**Strategy 3 — Part Pre-payment:**\n" ++
  "- Take the loan, invest a lump sum after 6 months to reduce outstanding principal\n" ++
  "- Even a ₹50,000 pre-payment at month 6 reduces subsequent EMIs noticeably\n\n" ++
  "As your salary is ₹" ++ fmtCommaNum salary ++ "/month, an EMI of ₹" ++ fmtComma tenure_60_emi ++ " means " ++
  "only **" ++ toString (pyTrunc ((tenure_60_emi : ℚ) / salary * 100)) ++ "% of your take-home** — very manageable. 😊\n\n" ++
  "Which strategy would you like me to calculate in detail?"

/-- Trailing part of the attempt-2 template of `_tier_emi` (`negotiator.py`),
everything after the fixed opening phrase (split off so that the fixed
opening stays syntactically visible for the distinctness proofs). -/
def tier_emi_rest2 (ctx : NegotiationContext) : String :=
  let name := pyFirstWord ctx.customer_name
  let emi := ctx.emi.getD 0
  let tenure := ctx.tenure.getD 36
  let amount := ctx.approved
  let rate : ℚ := match ctx.rate with
    | some r => if r = 0 then 13.5 else r
    | none => 13.5
  let salary := ctx.salary
  let tenure_84_emi := pyTrunc (amount * (rate / 1200) / (1 - ((1 + rate / 1200) ^ (84 : ℕ))⁻¹))
  name ++ ", I\x27ve pushed the parameters as far as our system allows. " ++
  "Here\x27s my best possible offer on the EMI front:\n\n" ++
  "**🎁 Optimised EMI Package — Final Offer:**\n" ++
  "- Tenure extended to **84 months** → EMI = **₹" ++ fmtComma tenure_84_emi ++ "/month**\n" ++
  "- **Zero processing fee** (saving ₹0–₹3,000)\n" ++
  "- **Zero pre-closure penalty** — reduce loan anytime\n" ++
  "- **Step-up adjustment** — request a formal EMI revision after 12 months\n\n" ++
  "At ₹" ++ fmtComma tenure_84_emi ++ "/month, this is " ++
  toString (pyTrunc ((tenure_84_emi : ℚ) / salary * 100)) ++ "% of your salary — " ++
  "comfortably within RBI\x27s guideline.\n\n" ++
  "This is the lowest I can go through our automated system. " ++
  "If you need further flexibility, our **Senior Loan Advisor** can explore " ++
  "bespoke repayment structures including moratorium periods and balloon payments. " ++
  "Shall I escalate to them?"

def tier_emi (ctx : NegotiationContext) (attempt : ℕ) : String :=
  if attempt = 0 then "That\x27s a very fair concern, " ++ tier_emi_rest0 ctx
  else if attempt = 1 then "Let me dig deeper on this for you, " ++ tier_emi_rest1 ctx
  else "Alright " ++ tier_emi_rest2 ctx

/-- Source: `negotiator.py`, `NegotiatorAgent.negotiate` — the tier
dispatcher (any intent other than RATE or AMOUNT falls to the EMI tiers). -/
def negotiate (intent : String) (context : NegotiationContext) (attempt : ℕ) : String :=
  if intent = "RATE" then tier_rate context attempt
  else if intent = "AMOUNT" then tier_amount context attempt
  else tier_emi context attempt

/-- Source: `negotiator.py`, `escalate_to_human` — the graceful human handoff
message with the named senior contact. -/
def escalate_to_human (customer_name : String) : String :=
  let first_name := if customer_name = "" then "there" else pyFirstWord customer_name
  "Thank you for your patience, " ++ first_name ++ ", and I sincerely respect " ++
  "how thoroughly you\x27ve evaluated this. 🙏\n\n" ++
  "I\x27ve taken this negotiation as far as our automated system allows. " ++
  "At this point, I\x27d like to connect you with our **Senior Relationship Manager** " ++
  "who has **full discretionary authority** to offer:\n" ++
  "- Custom interest rate structures\n" ++
  "- Higher loan limits beyond standard pre-approval\n" ++
  "- Flexible repayment holidays and moratorium periods\n" ++
  "- Bespoke product combinations\n\n" ++
  "---\n" ++
  "**🏢 Your Dedicated Senior Loan Advisor:**\n\n" ++
  "👤 **Mr. Arjun Mehta** · Senior Relationship Manager\n" ++
  "📞 **+91-22-6789-1234** · *(Mon–Sat, 9 AM–6 PM)*\n" ++
  "📧 **arjun.mehta@loanverse.ai**\n" ++
  "💬 **WhatsApp:** +91-98765-01234\n\n" ++
  "---\n" ++
  "Please mention **Reference Code `" ++ pyUpper first_name ++ "-ESCALATE`** " ++
  "and he\x27ll have full visibility into your application so you won\x27t have to " ++
  "repeat yourself. He typically responds within **2 business hours**.\n\n" ++
  "Is there anything else I can help you with in the meantime? 😊"

end NegotiatorAgent

namespace NegotiatorAgent

/-- Source: `negotiator.py`, `_PATH1_SIGNALS`. -/
def PATH1_SIGNALS : List String :=
  ["path 1", "path1", "salary slip", "salary", "upload", "payslip",
   "income proof", "slip verification", "verify income", "first path",
   "first option", "option 1", "option a"]

/-- Source: `negotiator.py`, `_PATH2_SIGNALS`. -/
def PATH2_SIGNALS : List String :=
  ["path 2", "path2", "co-borrower", "coborrower", "co borrower",
   "joint", "add someone", "spouse", "parent", "sibling", "guarantor",
   "second path", "second option", "option 2", "option b"]

/-- Source: `negotiator.py`, `_PATH3_SIGNALS`. -/
def PATH3_SIGNALS : List String :=
  ["path 3", "path3", "split", "two products", "separate", "partial",
   "half now", "proceed with", "approved amount", "go ahead with",
   "third path", "third option", "option 3", "option c"]

/-- Source: `negotiator.py`, `detect_path_selection`. Detects which of the
three Tier-2 alternative paths the user picked. -/
def detect_path_selection (user_input : String) : Option String :=
  let msg := pyStrip (pyLower user_input)
  if PATH1_SIGNALS.any (fun s => pyIn s msg) then some "PATH_1"
  else if PATH2_SIGNALS.any (fun s => pyIn s msg) then some "PATH_2"
  else if PATH3_SIGNALS.any (fun s => pyIn s msg) then some "PATH_3"
  else none

/-- Source: `negotiator.py`, `handle_path_selection`. Returns the follow-up
message and the action code for a selected alternative path. -/
def handle_path_selection (path : String) (context : NegotiationContext) :
    String × Option String :=
  let name := pyFirstWord context.customer_name
  let requested := context.requested
  let approved := context.approved
  let salary := context.salary
  if path = "PATH_1" then
    ("Great choice, " ++ name ++ "! 🎉 Salary verification is the fastest route to an enhanced limit.\n\n" ++
     "**Here\x27s what happens next:**\n" ++
     "- Upload your **latest 3-month salary slip** (PDF, JPG, or PNG) using the button below\n" ++
     "- Our system will verify your income against our CRM record\n" ++
     "- If your declared salary ≥ ₹" ++ fmtCommaNum salary ++ ", we may approve up to " ++
     "**₹" ++ fmtComma0 (min requested ((pyTrunc (approved * 1.5) : ℚ))) ++ "** under the Conditional scheme\n\n" ++
     "Please go ahead and upload your salary slip! 📎", some "SALARY_SLIP")
  else if path = "PATH_2" then
    ("Excellent choice, " ++ name ++ "! A co-borrower significantly boosts your eligibility. 👨‍👩‍👧\n\n" ++
     "**How it works:**\n" ++
     "- Both your incomes are combined for DTI calculation\n" ++
     "- Combined DTI = (New EMI) / (Your Salary + Co-Borrower Salary) — much more headroom\n" ++
     "- This could unlock the full **₹" ++ fmtComma0 requested ++ "**\n\n" ++
     "**Co-borrower eligibility:**\n" ++
     "- Must be a spouse, parent, sibling, or employed adult child\n" ++
     "- Needs a valid PAN and salary proof\n\n" ++
     "**Next steps** — our Senior Advisor will help arrange the joint application:\n\n" ++
     "👤 **Mr. Arjun Mehta** · Senior Relationship Manager\n" ++
     "📞 **+91-22-6789-1234** · 📧 **arjun.mehta@loanverse.ai**\n\n" ++
     "In the meantime, would you like to proceed with the pre-approved " ++
     "**₹" ++ fmtComma0 approved ++ "** instantly while you arrange the co-borrower documentation? 😊",
     some "CO_BORROWER")
  else if path = "PATH_3" then
    ("Smart move, " ++ name ++ "! Let\x27s get you started with what\x27s fully approved right now. 🚀\n\n" ++
     "I\x27ll proceed with **₹" ++ fmtComma0 approved ++ "** as your personal loan — " ++
     "fully approved, ready to disburse.\n\n" ++
     "**For the remaining ₹" ++ fmtComma0 (requested - approved) ++ ":**\n" ++
     "- In 3–4 months, once this loan\x27s repayment pattern is established, your DTI profile improves\n" ++
     "- You can then apply for a **Home Improvement Loan** or **Top-Up Loan** for the balance\n" ++
     "- Many customers complete both disbursements within 6 months\n\n" ++
     "Let me generate your EMI options for ₹" ++ fmtComma0 approved ++ " right away! 📋",
     some "SPLIT_LOAN")
  else ("", none)

end NegotiatorAgent

/-! ## agents/verification.py — VerificationAgent -/

namespace VerificationAgent

/-- Full match of `[6-9]\d{9}`: exactly ten digits, the first in 6–9. -/
def isMobileMatch (s : String) : Bool :=
  s.length = 10 &&
  (match s.data with
   | c :: rest => (c ∈ ['6', '7', '8', '9']) && rest.all Char.isDigit
   | [] => false)

/-- Source: `verification.py`, `VerificationAgent.validate_phone`. Strips
separators (`\s\-\.\(\)`), removes a `+91`/`91`/trunk-`0` prefix, then
requires a full `[6-9]\d{9}` match; `none` models Python `None` (invalid). -/
def validate_phone (raw_input : String) : Option String :=
  if raw_input = "" then none
  else
    let digits := String.mk (raw_input.data.filter
      (fun c => !(isSpaceChar c || c = '-' || c = '.' || c = '(' || c = ')')))
    let digits2 :=
      if pyStartsWith digits "+91" then String.mk (digits.data.drop 3)
      else if pyStartsWith digits "91" && digits.length = 12 then String.mk (digits.data.drop 2)
      else if pyStartsWith digits "0" && digits.length = 11 then String.mk (digits.data.drop 1)
      else digits
    if isMobileMatch digits2 then some digits2 else none

end VerificationAgent

/-! ## logic.py — underwriting engine -/

/-- Transcription of the per-branch result dictionaries of
`check_eligibility` (and helpers): a field is `some _` exactly when the
corresponding key is present in the dictionary that branch returns.  The
human-readable `reason` strings (pure presentation text built from the same
numbers) are not needed by any claim and are not carried here. -/
structure EligibilityResult where
  status : String
  type : Option String
  user_name : Option String
  credit_score : Option ℤ
  limit : Option ℚ
  max_eligible : Option ℚ
  approved_amount : Option ℚ
  emi : Option ℤ
  tenure_months : Option ℤ
  interest_rate : Option ℚ
  dti : Option ℚ
  current_emis : Option ℚ
  monthly_salary : Option ℚ
  requested : Option ℚ
  needs : Option String
  pan : Option String
deriving Repr, DecidableEq

/-- Base record: the empty dictionary (no keys present yet). -/
def EligibilityResult.base : EligibilityResult :=
  { status := "", type := none, user_name := none, credit_score := none
    limit := none, max_eligible := none, approved_amount := none, emi := none
    tenure_months := none, interest_rate := none, dti := none
    current_emis := none, monthly_salary := none, requested := none
    needs := none, pan := none }

/-- Source: `logic.py`, `check_eligibility` — the 4-rule underwriting engine.
The `get_user` datastore lookup is the external collaborator; its result is
the `user` argument (`none` = phone not found). -/
def check_eligibility (user : Option Customer) (requested_amount : ℚ)
    (monthly_salary : Option ℚ) : EligibilityResult :=
  match user with
  | none =>
    { EligibilityResult.base with
      status := "USER_NOT_FOUND", limit := some 0, max_eligible := some 0 }
  | some u =>
    let credit_score := u.score
    let pre_approved_limit := u.limit
    let current_emis := u.current_emis.getD 0
    let salary_on_file := u.salary.getD 0
    if credit_score < 700 then
      { EligibilityResult.base with
        status := "REJECT", user_name := some u.name
        credit_score := some credit_score
        limit := some pre_approved_limit, max_eligible := some 0 }
    else
      let interest_rate := get_risk_based_rate credit_score
      if requested_amount ≤ pre_approved_limit then
        let emi_for_dti := calculate_emi requested_amount 60 interest_rate
        let emi_standard := calculate_emi requested_amount 36 interest_rate
        let dti := calculate_dti_ratio (emi_for_dti : ℚ) current_emis salary_on_file
        if dti > 60 then
          { EligibilityResult.base with
            status := "REJECT", dti := some dti, current_emis := some current_emis }
        else
          { EligibilityResult.base with
            status := "APPROVE", type := some "INSTANT", user_name := some u.name
            approved_amount := some requested_amount, emi := some emi_standard
            tenure_months := some 36, interest_rate := some interest_rate
            limit := some pre_approved_limit, max_eligible := some pre_approved_limit
            pan := some (u.pan.getD "NA") }
      else if requested_amount ≤ 2 * pre_approved_limit then
        match monthly_salary with
        | none =>
          { EligibilityResult.base with
            status := "CONDITIONAL", user_name := some u.name
            limit := some pre_approved_limit
            max_eligible := some (2 * pre_approved_limit)
            needs := some "SALARY_SLIP" }
        | some msal =>
          let emi_for_dti := calculate_emi requested_amount 60 interest_rate
          let emi := calculate_emi requested_amount 36 interest_rate
          let dti := calculate_dti_ratio (emi_for_dti : ℚ) current_emis msal
          if dti > 50 then
            { EligibilityResult.base with
              status := "REJECT", user_name := some u.name, emi := some emi
              dti := some dti, monthly_salary := some msal
              limit := some pre_approved_limit, max_eligible := some 0 }
          else
            { EligibilityResult.base with
              status := "APPROVE", type := some "SALARY_VERIFIED"
              user_name := some u.name
              approved_amount := some requested_amount, emi := some emi
              dti := some dti, tenure_months := some 36
              interest_rate := some interest_rate, monthly_salary := some msal
              limit := some pre_approved_limit
              max_eligible := some (2 * pre_approved_limit)
              pan := some (u.pan.getD "NA") }
      else
        { EligibilityResult.base with
          status := "REJECT", user_name := some u.name
          limit := some pre_approved_limit
          max_eligible := some (2 * pre_approved_limit)
          requested := some requested_amount }

/-! ## logic.py — Goldilocks option generation -/

/-- One entry of the dictionary built by `generate_goldilocks_options`. -/
structure GoldilocksOption where
  tenure : ℤ
  emi : ℤ
  total_interest : ℤ
  dti : Option ℚ
  available_income : Option ℚ
  total_emi : ℚ
  label : String
deriving Repr, DecidableEq

/-- The three options of `generate_goldilocks_options`. -/
structure GoldilocksOptions where
  aggressive : GoldilocksOption
  balanced : GoldilocksOption
  relaxed : GoldilocksOption
deriving Repr, DecidableEq

/-- One loop iteration of `generate_goldilocks_options`: EMI, total interest,
DTI over `valid_salary` (1 when the salary is non-positive, to avoid the
division), with `dti`/`available_income` recorded only for a positive salary. -/
def mkGoldilocksOption (amount rate salary current_emis : ℚ) (tenure : ℤ)
    (label : String) : GoldilocksOption :=
  let emi := calculate_emi amount tenure rate
  let valid_salary := if salary > 0 then salary else 1
  let total_emi := (emi : ℚ) + current_emis
  let dti := total_emi / valid_salary * 100
  { tenure := tenure, emi := emi
    total_interest := calculate_total_interest amount tenure rate
    dti := if salary > 0 then some (pyRoundTo dti 1) else none
    available_income := if salary > 0 then some (salary - total_emi) else none
    total_emi := total_emi, label := label }

/-- Source: `logic.py`, `generate_goldilocks_options` — the three fixed-tenure
plans (24, 36, 60 months) with their DTI analysis. -/
def generate_goldilocks_options (amount rate salary current_emis : ℚ) :
    GoldilocksOptions :=
  { aggressive := mkGoldilocksOption amount rate salary current_emis 24 "Fast (24 months)"
    balanced := mkGoldilocksOption amount rate salary current_emis 36 "Balanced (36 months)"
    relaxed := mkGoldilocksOption amount rate salary current_emis 60 "Extended (60 months)" }

/-! ## conversation_templates.py — Goldilocks presentation -/

/-- The 21-character separator bar of `build_goldilocks_presentation`. -/
def goldilocksBar : String := "━━━━━━━━━━━━━━━━━━━━━"

/-- Python `str(x)` for the `dti` slot of the presentation (`None` prints as
the text `None`). -/
def dtiSlot : Option ℚ → String
  | some q => pyStrFloat q
  | none => "None"

/-- The per-option detail lines of `build_goldilocks_presentation`, appended
only when `total_emi` is truthy.  (CPython would raise on
`int(available_income)` when that slot is `None`; the out-of-domain case is
modelled with 0.) -/
def goldilocksDetail (o : GoldilocksOption) : String :=
  if o.total_emi ≠ 0 then
    "\n**Total EMIs:** ₹" ++ fmtComma (pyTrunc o.total_emi) ++ " (" ++ dtiSlot o.dti ++
    "% of salary) ✓" ++
    "\nAvailable for other expenses: ₹" ++ fmtComma (pyTrunc (o.available_income.getD 0)) ++ "/month"
  else ""

/-- Source: `conversation_templates.py`, `build_goldilocks_presentation`. -/
def build_goldilocks_presentation (options : GoldilocksOptions) : String :=
  let agg := options.aggressive
  let bal := options.balanced
  let rel := options.relaxed
  goldilocksBar ++ "\n📋 **OPTION 1: " ++ agg.label ++ "**\n" ++ goldilocksBar ++
  "\nEMI: ₹" ++ fmtComma (pyTrunc (agg.emi : ℚ)) ++ "/month" ++
  goldilocksDetail agg ++
  "\n\n" ++ goldilocksBar ++ "\n📋 **OPTION 2: " ++ bal.label ++ "** ⭐\n" ++ goldilocksBar ++
  "\nEMI: ₹" ++ fmtComma (pyTrunc (bal.emi : ℚ)) ++ "/month" ++
  goldilocksDetail bal ++
  "\n\n" ++ goldilocksBar ++ "\n📋 **OPTION 3: " ++ rel.label ++ "**\n" ++ goldilocksBar ++
  "\nEMI: ₹" ++ fmtComma (pyTrunc (rel.emi : ℚ)) ++ "/month" ++
  goldilocksDetail rel ++
  "\n\n" ++ goldilocksBar ++
  "\n\n💡 **Maya\x27s Recommendation:** Option 2\n\nThis keeps your debt burden comfortable while offering reasonable interest savings. Which option works best for your situation?"

/-! ## app.py — orchestrator pieces -/

/-- Source: `master.py`, `ConversationPhase` — the strict 7-phase flow
(imported and driven by `app.py`). -/
inductive ConversationPhase where
  | PHASE_1_WARM_OPENING
  | PHASE_2_PURPOSE_DISCOVERY
  | PHASE_3_VERIFICATION
  | PHASE_4_NEEDS_ANALYSIS
  | PHASE_5_OPTIONS_PRESENTATION
  | PHASE_6_CONFIRMATION
  | PHASE_7_DOCUMENTATION
deriving Repr, DecidableEq

namespace App

/-- Source: `app.py`, `detect_handoff_trigger`. -/
def detect_handoff_trigger (user_input : String) : Bool :=
  anyIn ["human", "agent", "real person", "customer care", "talk to a person", "executive"]
    (pyLower user_input)

/-- Source: `app.py`, `generate_handoff_message`. -/
def generate_handoff_message : String :=
  "I understand you\x27d like to speak with a human agent. I\x27m transferring you to our next available customer care executive now. Please hold on for just a moment."

/-- What a turn of `process_ai_response` does after its preliminary checks:
either short-circuit to the handoff message, or dispatch the current phase
handler.  The handler bodies are separate functions in the source; the
routing function below only selects one of them. -/
inductive TurnRoute where
  | handoff
  | dispatch (phase : ConversationPhase)
deriving Repr, DecidableEq

/-- Source: `app.py`, `process_ai_response` — the per-turn entry point.  A
global handoff-keyword check runs first in every phase except Phase 1; the
`elif` chain then dispatches the handler of the current phase.  No other
check (in particular no compliance check) appears on this path. -/
def process_ai_response (conversation_phase : ConversationPhase)
    (user_input : String) : TurnRoute :=
  if conversation_phase ≠ ConversationPhase.PHASE_1_WARM_OPENING ∧
     detect_handoff_trigger user_input then
    TurnRoute.handoff
  else
    match conversation_phase with
    | .PHASE_1_WARM_OPENING => .dispatch .PHASE_1_WARM_OPENING
    | .PHASE_2_PURPOSE_DISCOVERY => .dispatch .PHASE_2_PURPOSE_DISCOVERY
    | .PHASE_3_VERIFICATION => .dispatch .PHASE_3_VERIFICATION
    | .PHASE_4_NEEDS_ANALYSIS => .dispatch .PHASE_4_NEEDS_ANALYSIS
    | .PHASE_5_OPTIONS_PRESENTATION => .dispatch .PHASE_5_OPTIONS_PRESENTATION
    | .PHASE_6_CONFIRMATION => .dispatch .PHASE_6_CONFIRMATION
    | .PHASE_7_DOCUMENTATION => .dispatch .PHASE_7_DOCUMENTATION

/-- The alternatives of the amount regex of `extract_amount_from_input`, in
source order; the flag marks the `\b` on `l` and `k`. -/
def unitAlternatives : List (String × Bool) :=
  [("lakh", false), ("lakhs", false), ("l", true), ("k", true),
   ("thousand", false), ("crore", false), ("cr", false)]

/-- The pattern `(\d+(?:\.\d+)?)\s*(lakh|lakhs|l\b|k\b|thousand|crore|cr)`
tried at one position: number value and the matched unit text. -/
def amountAt (l : List Char) : Option (ℚ × String) :=
  let d1 := l.takeWhile Char.isDigit
  if d1.isEmpty then none
  else
    let r1 := l.dropWhile Char.isDigit
    let attempt : ℚ → List Char → Option (ℚ × String) := fun num r =>
      let r2 := r.dropWhile isSpaceChar
      unitAlternatives.findSome? (fun ub =>
        if List.isPrefixOf ub.1.data r2 &&
           (!ub.2 || (match r2.drop ub.1.length with
                      | [] => true
                      | c :: _ => !isWordChar c)) then
          some (num, ub.1)
        else none)
    match r1 with
    | '.' :: r2 =>
      let fr := r2.takeWhile Char.isDigit
      if fr.isEmpty then attempt (parseDecimal d1 []) r1
      else
        (attempt (parseDecimal d1 fr) (r2.dropWhile Char.isDigit)).orElse
          (fun _ => attempt (parseDecimal d1 []) r1)
    | _ => attempt (parseDecimal d1 []) r1

/-- Source: `app.py`, `extract_amount_from_input`.  The unit regex, with an
all-digits fallback; 0 is the "no amount" sentinel.  Note: no ceiling is
applied anywhere in this function. -/
def extract_amount_from_input (user_input : String) : ℤ :=
  let input_lower := pyLower user_input
  match scanOpt amountAt input_lower.data with
  | some nu =>
    if nu.2 = "lakh" ∨ nu.2 = "lakhs" ∨ nu.2 = "l" then pyTrunc (nu.1 * 100000)
    else if nu.2 = "k" ∨ nu.2 = "thousand" then pyTrunc (nu.1 * 1000)
    else if nu.2 = "crore" ∨ nu.2 = "cr" then pyTrunc (nu.1 * 10000000)
    else pyTrunc nu.1
  | none =>
    let digits := user_input.data.filter Char.isDigit
    if digits.isEmpty then 0 else (digitsToNat digits : ℤ)

end App

namespace App

/-- The slice of `st.session_state` read or written by the Negotiator
Interception block of `handle_phase_4_needs_analysis` (`app.py`).  Fields
initialised to `None` by `initialize_session_state` are `Option`s. -/
structure Phase4Session where
  negotiation_active : Bool
  negotiation_attempts : ℕ
  negotiation_domain : Option String
  human_handoff : Bool
  awaiting_renegotiation : Bool
  awaiting_renegotiation_confirmed : Bool
  awaiting_salary_slip : Bool
  interest_rate : Option ℚ
  requested_amount : Option ℚ
  loan_amount : Option ℤ
  safe_max_amount : Option ℚ
  loan_purpose : Option String
  conversation_phase : ConversationPhase
  goldilocks_options : Option GoldilocksOptions
deriving Repr, DecidableEq

/-- Outcome of the interception block: the mutated session, the assistant
messages emitted (in order), and whether the block `return`ed (`handled`)
or fell through to the rest of the Phase-4 handler. -/
structure InterceptionResult where
  session : Phase4Session
  messages : List String
  handled : Bool
deriving Repr, DecidableEq

/-- The negotiation context dictionary built inside
`handle_phase_4_needs_analysis` (both for path selection and for tier
dispatch; `requested_amount`/`loan_purpose` are populated before any code
path reaches this block, so their `None` states take the `.get` default). -/
def buildContext (sess : Phase4Session) (user_data : Customer) :
    NegotiatorAgent.NegotiationContext :=
  { customer_name := user_data.name
    credit_score := user_data.score
    rate := some (match sess.interest_rate with
      | some r => if r = 0 then 13.5 else r
      | none => 13.5)
    requested := sess.requested_amount.getD 0
    approved := sess.safe_max_amount.getD user_data.limit
    salary := user_data.salary.getD 0
    current_emis := user_data.current_emis.getD 0
    purpose := sess.loan_purpose.getD "your needs"
    emi := none, tenure := none }

/-- The acceptance words of the acceptance/amount guard in the interception
block. -/
def accept_words : List String :=
  ["yes", "ok", "okay", "sure", "fine", "proceed", "accept",
   "go ahead", "continue", "option", "let", "agreed", "deal",
   "confirm", "sounds good", "alright", "done"]

/-- Source: `app.py`, `handle_phase_4_needs_analysis`, the Negotiator
Interception block (guarded by `st.session_state.get('user_data')`): Tier-2
path selection first, then the acceptance/amount guard, then the
rate-pushback / amount-pushback / re-fire rules driving the escalation
ladder, with human handoff at the fourth pushback. -/
def negotiator_interception (sess : Phase4Session) (user_data : Option Customer)
    (user_input : String) : InterceptionResult :=
  match user_data with
  | none => { session := sess, messages := [], handled := false }
  | some u =>
    let intent := NegotiatorAgent.detect_negotiation_intent user_input
    let is_active := sess.negotiation_active
    match (if is_active then NegotiatorAgent.detect_path_selection user_input else none) with
    | some path_sel =>
      let context_p := buildContext sess u
      let pm := NegotiatorAgent.handle_path_selection path_sel context_p
      let sess1 := { sess with negotiation_active := false, negotiation_attempts := 0 }
      if pm.2 = some "SALARY_SLIP" then
        let rate_l : ℚ := match sess.interest_rate with
          | some r => if r = 0 then 13.5 else r
          | none => 13.5
        let amt_l := context_p.requested
        let opts := generate_goldilocks_options amt_l rate_l
          (u.salary.getD 0) (u.current_emis.getD 0)
        { session := { sess1 with
                       goldilocks_options := some opts,
                       awaiting_salary_slip := true,
                       conversation_phase := ConversationPhase.PHASE_5_OPTIONS_PRESENTATION }
          messages := [pm.1], handled := true }
      else if pm.2 = some "CO_BORROWER" then
        { session := { sess1 with
                       awaiting_renegotiation := true,
                       safe_max_amount := some context_p.approved }
          messages := [pm.1], handled := true }
      else if pm.2 = some "SPLIT_LOAN" then
        let split_amount := context_p.approved
        if split_amount ≠ 0 ∧ split_amount ≥ 10000 then
          let rate_l := get_risk_based_rate u.score
          let opts := generate_goldilocks_options split_amount rate_l
            (u.salary.getD 0) (u.current_emis.getD 0)
          { session := { sess1 with
                         interest_rate := some rate_l,
                         requested_amount := some split_amount,
                         loan_amount := some (pyTrunc split_amount),
                         goldilocks_options := some opts,
                         conversation_phase := ConversationPhase.PHASE_5_OPTIONS_PRESENTATION }
            messages := [pm.1, build_goldilocks_presentation opts], handled := true }
        else
          { session := sess1, messages := [pm.1], handled := true }
      else
        { session := sess1, messages := [pm.1], handled := true }
    | none =>
      let user_lower_ng := pyLower user_input
      let has_accept := anyIn accept_words user_lower_ng
      let amt_check := extract_amount_from_input user_input
      let has_amount := amt_check ≠ 0 ∧ amt_check ≥ 10000
      let cleared := is_active ∧ (has_accept ∨ (has_amount ∧ intent = none))
      let sess1 := if cleared then { sess with negotiation_active := false } else sess
      let is_active1 := is_active ∧ ¬cleared
      let rate_pushback := intent = some "RATE" ∧
        ¬sess.awaiting_renegotiation_confirmed ∧ ¬sess.awaiting_renegotiation
      let amount_pushback := intent = some "AMOUNT" ∧ is_active1 ∧
        ¬sess.awaiting_renegotiation_confirmed ∧ ¬sess.awaiting_renegotiation
      let refire := is_active1 ∧ intent ≠ none ∧ ¬sess.awaiting_renegotiation
      if rate_pushback ∨ amount_pushback ∨ refire then
        let sess2 := { sess1 with negotiation_active := true }
        let attempt := sess2.negotiation_attempts
        if attempt ≥ 3 then
          { session := { sess2 with negotiation_active := false, human_handoff := true }
            messages := [NegotiatorAgent.escalate_to_human u.name]
            handled := true }
        else
          let context := buildContext sess1 u
          let active_intent := intent.getD (sess1.negotiation_domain.getD "AMOUNT")
          let sess3 := match intent with
            | some i => { sess2 with negotiation_domain := some i }
            | none => sess2
          { session := { sess3 with negotiation_attempts := attempt + 1 }
            messages := [NegotiatorAgent.negotiate active_intent context attempt]
            handled := true }
      else
        { session := sess1, messages := [], handled := false }

end App

/-! ## Helper lemmas -/

/-- Python `round` never overshoots by more than a half. -/
theorem pyRound_le (q : ℚ) : (pyRound q : ℚ) ≤ q + 1/2 := by
  simp only [pyRound]
  have h1 : (⌊q⌋ : ℚ) ≤ q := Int.floor_le q
  split_ifs <;> push_cast <;> linarith

/-- Python `round` never undershoots by more than a half. -/
theorem le_pyRound (q : ℚ) : q - 1/2 ≤ (pyRound q : ℚ) := by
  simp only [pyRound]
  have h2 : q < ⌊q⌋ + 1 := Int.lt_floor_add_one q
  split_ifs <;> push_cast <;> linarith

/-- Python `round` (ties to even) is monotone. -/
theorem pyRound_mono {x y : ℚ} (h : x ≤ y) : pyRound x ≤ pyRound y := by
  by_contra hc
  push_neg at hc
  have h1 : pyRound y + 1 ≤ pyRound x := Int.add_one_le_iff.mpr hc
  have h1' : (pyRound y : ℚ) + 1 ≤ (pyRound x : ℚ) := by exact_mod_cast h1
  have h2 := pyRound_le x
  have h3 := le_pyRound y
  have hxy : x = y := le_antisymm h (by linarith)
  rw [hxy] at hc
  exact absurd hc (lt_irrefl _)

/-- Two strings differing at some character position differ. -/
theorem ne_of_nth_char {s t : String} (i : ℕ)
    (h : s.data.get? i ≠ t.data.get? i) : s ≠ t :=
  fun he => h (congrArg (fun u => u.data.get? i) he)

/-- A character inside the literal prefix of an appended string. -/
theorem nth_of_head_lit (p r : String) (i : ℕ) (h : i < p.data.length) :
    (p ++ r).data.get? i = p.data.get? i := by
  rw [String.data_append]
  simp only [List.get?_eq_getElem?]
  exact List.getElem?_append_left h

/-! ## Example customer profiles (from the spec scenarios) -/

/-- The instant-approval scenario profile of the spec (also the example
record documented in `verification.py`). -/
def raviProfile : Customer :=
  { phone := "9278901234", name := "Ravi Kumar", score := 780, limit := 500000
    salary := some 75000, current_emis := some 0, pan := some "ABCDE1234F" }

/-- A sub-700-score profile whose pre-approved limit equals the requested
amount in the rule-ordering scenario. -/
def lowScoreProfile : Customer :=
  { phone := "9000000001", name := "Low Score", score := 650, limit := 400000
    salary := some 50000, current_emis := some 0, pan := none }

/-- A found profile with a missing salary field. -/
def noSalaryProfile : Customer :=
  { phone := "9000000002", name := "No Salary", score := 720, limit := 300000
    salary := none, current_emis := some 0, pan := none }

/-- A profile with both a sub-700 score and a non-positive stored salary. -/
def lowScoreNoSalary : Customer :=
  { phone := "9000000003", name := "Low NoSal", score := 650, limit := 100000
    salary := some 0, current_emis := some 0, pan := none }

/-! ## Claim theorems -/

/-- C4: for every customer profile with credit score below 700,
`check_eligibility` returns status REJECT regardless of the requested amount
(and of any supplied salary); in particular a profile with score 650 and a
requested amount equal to its pre-approved limit of ₹4,00,000 is rejected,
never instant-approved — the Rule-1 score gate precedes the Rule-2 instant
path. -/
theorem C4_score_gate :
    (∀ (u : Customer) (requested : ℚ) (msal : Option ℚ), u.score < 700 →
       (check_eligibility (some u) requested msal).status = "REJECT") ∧
    ((check_eligibility (some lowScoreProfile) 400000 none).status = "REJECT" ∧
     (check_eligibility (some lowScoreProfile) 400000 none).type = none) := by
  constructor
  · intro u requested msal h
    simp only [check_eligibility]
    rw [if_pos h]
  · exact ⟨by with_unfolding_all decide, by with_unfolding_all decide⟩

/-- C4 witness: the score gate applied to the concrete 650-score profile at
its full pre-approved limit. -/
theorem C4_score_gate_witness :
    (check_eligibility (some lowScoreProfile) 400000 none).status = "REJECT" :=
  C4_score_gate.1 lowScoreProfile 400000 none (by decide)

/-- C5: for every found profile with score at least 700 and requested amount
within the pre-approved limit, `check_eligibility` computes the safety DTI
from the 60-month EMI; above 60 % it rejects, otherwise it returns an
APPROVE of type INSTANT reporting the 36-month EMI and the risk-based rate;
the concrete spec scenario (score 780, limit 5,00,000, salary 75,000, no
current EMIs, requested 4,00,000) yields APPROVE / INSTANT at rate 11.5 %
with the 36-month reducing-balance EMI. -/
theorem C5_instant_approval :
    (∀ (u : Customer) (requested : ℚ) (msal : Option ℚ),
       700 ≤ u.score → requested ≤ u.limit →
       ((60 < calculate_dti_ratio
            (calculate_emi requested 60 (get_risk_based_rate u.score) : ℚ)
            (u.current_emis.getD 0) (u.salary.getD 0) →
          (check_eligibility (some u) requested msal).status = "REJECT") ∧
        (calculate_dti_ratio
            (calculate_emi requested 60 (get_risk_based_rate u.score) : ℚ)
            (u.current_emis.getD 0) (u.salary.getD 0) ≤ 60 →
          (check_eligibility (some u) requested msal).status = "APPROVE" ∧
          (check_eligibility (some u) requested msal).type = some "INSTANT" ∧
          (check_eligibility (some u) requested msal).emi =
            some (calculate_emi requested 36 (get_risk_based_rate u.score)) ∧
          (check_eligibility (some u) requested msal).interest_rate =
            some (get_risk_based_rate u.score)))) ∧
    ((check_eligibility (some raviProfile) 400000 none).status = "APPROVE" ∧
     (check_eligibility (some raviProfile) 400000 none).type = some "INSTANT" ∧
     (check_eligibility (some raviProfile) 400000 none).interest_rate = some 11.5 ∧
     (check_eligibility (some raviProfile) 400000 none).emi =
       some (calculate_emi 400000 36 11.5)) := by
  have huniv : ∀ (u : Customer) (requested : ℚ) (msal : Option ℚ),
      700 ≤ u.score → requested ≤ u.limit →
      ((60 < calculate_dti_ratio
          (calculate_emi requested 60 (get_risk_based_rate u.score) : ℚ)
          (u.current_emis.getD 0) (u.salary.getD 0) →
        (check_eligibility (some u) requested msal).status = "REJECT") ∧
       (calculate_dti_ratio
          (calculate_emi requested 60 (get_risk_based_rate u.score) : ℚ)
          (u.current_emis.getD 0) (u.salary.getD 0) ≤ 60 →
        (check_eligibility (some u) requested msal).status = "APPROVE" ∧
        (check_eligibility (some u) requested msal).type = some "INSTANT" ∧
        (check_eligibility (some u) requested msal).emi =
          some (calculate_emi requested 36 (get_risk_based_rate u.score)) ∧
        (check_eligibility (some u) requested msal).interest_rate =
          some (get_risk_based_rate u.score))) := by
    intro u requested msal hscore hlimit
    have hnot : ¬ u.score < 700 := not_lt.mpr hscore
    constructor
    · intro hdti
      simp only [check_eligibility]
      rw [if_neg hnot, if_pos hlimit, if_pos hdti]
    · intro hdti
      have hnot2 : ¬ 60 < calculate_dti_ratio
          (calculate_emi requested 60 (get_risk_based_rate u.score) : ℚ)
          (u.current_emis.getD 0) (u.salary.getD 0) := not_lt.mpr hdti
      simp only [check_eligibility]
      rw [if_neg hnot, if_pos hlimit, if_neg hnot2]
      exact ⟨rfl, rfl, rfl, rfl⟩
  refine ⟨huniv, ?_⟩
  have hrate : get_risk_based_rate raviProfile.score = 11.5 := by
    with_unfolding_all decide
  have h := (huniv raviProfile 400000 none (by decide)
    (by with_unfolding_all decide)).2 (by with_unfolding_all decide)
  rw [hrate] at h
  exact ⟨h.1, h.2.1, h.2.2.2, h.2.2.1⟩

/-- C5 witness: the instant path applied to the concrete spec scenario,
discharging the score, limit and DTI hypotheses at those numbers. -/
theorem C5_instant_approval_witness :
    (check_eligibility (some raviProfile) 400000 none).status = "APPROVE" ∧
    (check_eligibility (some raviProfile) 400000 none).type = some "INSTANT" ∧
    (check_eligibility (some raviProfile) 400000 none).emi =
      some (calculate_emi 400000 36 (get_risk_based_rate raviProfile.score)) ∧
    (check_eligibility (some raviProfile) 400000 none).interest_rate =
      some (get_risk_based_rate raviProfile.score) :=
  (C5_instant_approval.1 raviProfile 400000 none (by decide)
    (by with_unfolding_all decide)).2 (by with_unfolding_all decide)

/-- C10 counterexample: a stored profile with a non-positive salary but a
sub-700 credit score is rejected by the Rule-1 score branch, whose result
dictionary carries no `dti` key at all — not by the DTI debt-trap branch with
DTI 100.0, as the claim states for every such profile. -/
theorem C10_counterexample :
    lowScoreNoSalary.salary.getD 0 ≤ 0 ∧
    (50000 : ℚ) ≤ lowScoreNoSalary.limit ∧
    (check_eligibility (some lowScoreNoSalary) 50000 none).status = "REJECT" ∧
    (check_eligibility (some lowScoreNoSalary) 50000 none).dti = none := by
  refine ⟨?_, ?_, ?_, ?_⟩ <;> with_unfolding_all decide

/-- C10 (amended): the DTI computation is guarded — `calculate_dti_ratio`
returns 100.0 without dividing whenever the salary is non-positive — and for
every found profile with a missing or non-positive salary field whose score
reaches the Rule-2 instant path (score at least 700), `check_eligibility` on
any requested amount within the pre-approved limit rejects via the DTI
debt-trap branch with DTI 100.0. -/
theorem C10_guarded_dti :
    (∀ e c s : ℚ, s ≤ 0 → calculate_dti_ratio e c s = 100) ∧
    (∀ (u : Customer) (requested : ℚ) (msal : Option ℚ),
       u.salary.getD 0 ≤ 0 → 700 ≤ u.score → requested ≤ u.limit →
       (check_eligibility (some u) requested msal).status = "REJECT" ∧
       (check_eligibility (some u) requested msal).dti = some 100) := by
  have hguard : ∀ e c s : ℚ, s ≤ 0 → calculate_dti_ratio e c s = 100 := by
    intro e c s hs
    simp only [calculate_dti_ratio]
    rw [if_pos hs]
  refine ⟨hguard, ?_⟩
  intro u requested msal hsal hscore hlimit
  have hnot : ¬ u.score < 700 := not_lt.mpr hscore
  have hdti : calculate_dti_ratio
      (calculate_emi requested 60 (get_risk_based_rate u.score) : ℚ)
      (u.current_emis.getD 0) (u.salary.getD 0) = 100 :=
    hguard _ _ _ hsal
  have hgt : 60 < calculate_dti_ratio
      (calculate_emi requested 60 (get_risk_based_rate u.score) : ℚ)
      (u.current_emis.getD 0) (u.salary.getD 0) := by
    rw [hdti]; norm_num
  constructor
  · simp only [check_eligibility]
    rw [if_neg hnot, if_pos hlimit, if_pos hgt]
  · simp only [check_eligibility]
    rw [if_neg hnot, if_pos hlimit, if_pos hgt]
    rw [hdti]

/-- C10 witness: the guard and the debt-trap rejection at the concrete
missing-salary profile requesting half its limit. -/
theorem C10_guarded_dti_witness :
    calculate_dti_ratio 5000 0 0 = 100 ∧
    (check_eligibility (some noSalaryProfile) 150000 none).status = "REJECT" ∧
    (check_eligibility (some noSalaryProfile) 150000 none).dti = some 100 :=
  ⟨C10_guarded_dti.1 5000 0 0 (by norm_num),
   (C10_guarded_dti.2 noSalaryProfile 150000 none (by decide) (by decide)
     (by with_unfolding_all decide)).1,
   (C10_guarded_dti.2 noSalaryProfile 150000 none (by decide) (by decide)
     (by with_unfolding_all decide)).2⟩

/-- Any phone returned by `validate_phone` passed the full-match test. -/
theorem validate_phone_isMobileMatch (s t : String)
    (h : VerificationAgent.validate_phone s = some t) :
    VerificationAgent.isMobileMatch t = true := by
  simp only [VerificationAgent.validate_phone] at h
  split_ifs at h
  all_goals first
    | exact Option.noConfusion h
    | (injection h with h'; rw [← h']; assumption)

/-- C9: phone normalization round-trip — both `"+91 92789 01234"` and
`"9278901234"` normalize to `"9278901234"` (through `logic.normalize_phone`
and through `VerificationAgent.validate_phone`), and every phone that
`validate_phone` accepts is exactly ten digits whose first digit is 6–9;
every other input yields the explicit invalid outcome `none`. -/
theorem C9_phone_normalization :
    normalize_phone "+91 92789 01234" = "9278901234" ∧
    normalize_phone "9278901234" = "9278901234" ∧
    VerificationAgent.validate_phone "+91 92789 01234" = some "9278901234" ∧
    VerificationAgent.validate_phone "9278901234" = some "9278901234" ∧
    (∀ s t : String, VerificationAgent.validate_phone s = some t →
       t.length = 10 ∧ t.data.all Char.isDigit = true ∧
       ∃ c rest, t.data = c :: rest ∧ (c = '6' ∨ c = '7' ∨ c = '8' ∨ c = '9')) := by
  refine ⟨by decide, by decide, by decide, by decide, ?_⟩
  intro s t h
  have hm := validate_phone_isMobileMatch s t h
  simp only [VerificationAgent.isMobileMatch, Bool.and_eq_true,
    decide_eq_true_eq] at hm
  obtain ⟨hlen, hmatch⟩ := hm
  cases ht : t.data with
  | nil =>
    rw [ht] at hmatch
    exact absurd hmatch (by simp)
  | cons c rest =>
    rw [ht] at hmatch
    simp only [Bool.and_eq_true, decide_eq_true_eq] at hmatch
    obtain ⟨hc, hall⟩ := hmatch
    simp only [List.mem_cons, List.not_mem_nil, or_false] at hc
    have hcd : c.isDigit = true := by
      rcases hc with rfl | rfl | rfl | rfl <;> decide
    refine ⟨hlen, ?_, c, rest, rfl, hc⟩
    simp only [List.all_cons, Bool.and_eq_true]
    exact ⟨hcd, hall⟩

/-- C9 witness: the universal part applied to the concrete bare ten-digit
input. -/
theorem C9_phone_normalization_witness :
    ("9278901234" : String).length = 10 ∧
    ("9278901234" : String).data.all Char.isDigit = true ∧
    ∃ c rest, ("9278901234" : String).data = c :: rest ∧
      (c = '6' ∨ c = '7' ∨ c = '8' ∨ c = '9') :=
  C9_phone_normalization.2.2.2.2 "9278901234" "9278901234" (by decide)

/-- C6 counterexample: `'2 crore'` does not extract as the clamped 10000000
through the extractor the Phase handlers actually call —
`app.py`'s `extract_amount_from_input` has no ceiling and returns 20000000. -/
theorem C6_counterexample :
    App.extract_amount_from_input "2 crore" = 20000000 ∧
    (20000000 : ℤ) ≠ 10000000 := by
  constructor
  · with_unfolding_all rfl
  · decide

/-- C6 (amended): only the digit-plus-unit-suffix rule (rule 3) and the
standalone plain-number rule of `MasterAgent.extract_amount` clamp values at
the ₹1-crore maximum — so `'2 crore'` extracts as 10000000 there — while the
word-number rules return amounts above the ceiling unclamped (`'do crore'` →
20000000) and `app.py`'s `extract_amount_from_input` never clamps
(`'2 crore'` → 20000000). -/
theorem C6_amount_ceiling :
    (∀ (l : List Char) (v : ℚ), MasterAgent.rule3 l = some v →
       v ≤ MasterAgent.MAX_LOAN_AMOUNT) ∧
    (∀ (l : List Char) (v : ℚ), MasterAgent.plainNumber l = some v →
       v ≤ MasterAgent.MAX_LOAN_AMOUNT) ∧
    MasterAgent.extract_amount "2 crore" = some 10000000 ∧
    MasterAgent.extract_amount "do crore" = some 20000000 ∧
    App.extract_amount_from_input "2 crore" = 20000000 := by
  refine ⟨?_, ?_, ?_, ?_, ?_⟩
  · intro l v h
    simp only [MasterAgent.rule3] at h
    obtain ⟨pm, hmem, hf⟩ := List.exists_of_findSome?_eq_some h
    rw [Option.map_eq_some'] at hf
    obtain ⟨num, hnum, hv⟩ := hf
    split_ifs at hv with hgt
    · rw [← hv]
    · rw [← hv]
      exact le_of_not_lt hgt
  · intro l v h
    simp only [MasterAgent.plainNumber] at h
    obtain ⟨run, hmem, hf⟩ := List.exists_of_findSome?_eq_some h
    split_ifs at hf with hskip hgt
    · injection hf with hf'
      rw [← hf']
    · injection hf with hf'
      rw [← hf']
      exact le_of_not_lt hgt
  · with_unfolding_all rfl
  · with_unfolding_all rfl
  · with_unfolding_all rfl

/-- C6 witness: the rule-3 clamp applied to the concrete `'2 crore'` scan. -/
theorem C6_amount_ceiling_witness :
    (10000000 : ℚ) ≤ MasterAgent.MAX_LOAN_AMOUNT :=
  C6_amount_ceiling.1 "2 crore".data 10000000 (by with_unfolding_all rfl)

/-- Scaling a rational to the nearest multiple of 10000 with Python `round`
overshoots by at most 5000. -/
theorem pyRound_scale_le (y : ℚ) :
    ((pyRound (y / 10000) * 10000 : ℤ) : ℚ) ≤ y + 5000 := by
  have h := pyRound_le (y / 10000)
  have h2 := mul_le_mul_of_nonneg_right h (by norm_num : (0:ℚ) ≤ 10000)
  have h3 : (y / 10000 + 1/2) * 10000 = y + 5000 := by field_simp; ring
  rw [h3] at h2
  push_cast
  linarith

/-- Scaling a rational to the nearest multiple of 10000 with Python `round`
undershoots by at most 5000. -/
theorem pyRound_scale_ge (y : ℚ) :
    y - 5000 ≤ ((pyRound (y / 10000) * 10000 : ℤ) : ℚ) := by
  have h := le_pyRound (y / 10000)
  have h2 := mul_le_mul_of_nonneg_right h (by norm_num : (0:ℚ) ≤ 10000)
  have h3 : (y / 10000 - 1/2) * 10000 = y - 5000 := by field_simp; ring
  rw [h3] at h2
  push_cast
  linarith

/-- C7 counterexample: at salary 32,000, no existing EMIs, rate 13.5 %,
tenure 60, `calculate_safe_amount` returns ₹7,00,000, which exceeds the
exact solved safe principal — the code rounds to the NEAREST ₹10,000, not
down, so the return can exceed the solved maximum. -/
theorem C7_counterexample :
    calculate_safe_amount 32000 0 13.5 60 = 700000 ∧
    safeAmountExact 32000 0 13.5 60 < 700000 := by
  constructor
  · with_unfolding_all rfl
  · with_unfolding_all decide

/-- C7 (amended): when the 50 % EMI headroom is positive,
`calculate_safe_amount` returns the multiple of ₹10,000 NEAREST to the exact
solved safe principal (Python `round`, ties to even): the result is divisible
by 10,000 and within ₹5,000 of the exact value on either side — in
particular it can exceed the exact safe principal by up to ₹5,000. -/
theorem C7_safe_amount_rounding :
    ∀ (salary current_emis rate : ℚ) (tenure : ℕ),
      0 < salary * (1/2) - current_emis →
      (10000 : ℤ) ∣ calculate_safe_amount salary current_emis rate tenure ∧
      (calculate_safe_amount salary current_emis rate tenure : ℚ) ≤
        safeAmountExact salary current_emis rate tenure + 5000 ∧
      safeAmountExact salary current_emis rate tenure - 5000 ≤
        (calculate_safe_amount salary current_emis rate tenure : ℚ) := by
  intro salary ce rate tenure hpos
  have hne : ¬ salary * (1/2) - ce ≤ 0 := not_le.mpr hpos
  refine ⟨?_, ?_, ?_⟩
  · simp only [calculate_safe_amount]
    rw [if_neg hne]
    exact dvd_mul_left 10000 _
  · simp only [calculate_safe_amount, safeAmountExact]
    rw [if_neg hne]
    exact pyRound_scale_le _
  · simp only [calculate_safe_amount, safeAmountExact]
    rw [if_neg hne]
    exact pyRound_scale_ge _

/-- C7 witness: the rounding bound at the concrete counterexample input. -/
theorem C7_safe_amount_rounding_witness :
    (10000 : ℤ) ∣ calculate_safe_amount 32000 0 13.5 60 ∧
    (calculate_safe_amount 32000 0 13.5 60 : ℚ) ≤
      safeAmountExact 32000 0 13.5 60 + 5000 ∧
    safeAmountExact 32000 0 13.5 60 - 5000 ≤
      (calculate_safe_amount 32000 0 13.5 60 : ℚ) :=
  C7_safe_amount_rounding 32000 0 13.5 60 (by norm_num)

/-- The exact reducing-balance EMI is strictly decreasing in the tenure. -/
theorem emiExact_lt (P rate : ℚ) (hP : 0 < P) (hr : 0 < rate) {m n : ℕ}
    (hm : 1 ≤ m) (hmn : m < n) :
    emiExact P n rate < emiExact P m rate := by
  simp only [emiExact]
  have hr' : 0 < rate / (12 * 100) := by positivity
  have h1r : 1 < 1 + rate / (12 * 100) := by linarith
  have hx : 1 < (1 + rate / (12 * 100)) ^ m := one_lt_pow₀ h1r (by omega)
  have hy : (1 + rate / (12 * 100)) ^ m < (1 + rate / (12 * 100)) ^ n :=
    pow_lt_pow_right₀ h1r hmn
  have hx0 : 0 < (1 + rate / (12 * 100)) ^ m - 1 := by linarith
  have hy0 : 0 < (1 + rate / (12 * 100)) ^ n - 1 := by linarith
  rw [div_lt_div_iff₀ hy0 hx0]
  have hPr : 0 < P * (rate / (12 * 100)) := mul_pos hP hr'
  nlinarith [mul_pos hPr (sub_pos.mpr hy)]

/-- The rounded EMI of `calculate_emi` is non-increasing in the tenure. -/
theorem calculate_emi_le (P rate : ℚ) (hP : 0 < P) (hr : 0 < rate) {m n : ℕ}
    (hm : 1 ≤ m) (hmn : m < n) :
    calculate_emi P (n : ℤ) rate ≤ calculate_emi P (m : ℤ) rate := by
  have hlt := emiExact_lt P rate hP hr hm hmn
  simp only [calculate_emi]
  have hc1 : ¬ (P ≤ 0 ∨ (n : ℤ) ≤ 0) := by
    push_neg
    exact ⟨hP, by exact_mod_cast Nat.lt_of_lt_of_le (Nat.lt_of_lt_of_le Nat.zero_lt_one hm) hmn.le⟩
  have hc2 : ¬ (P ≤ 0 ∨ (m : ℤ) ≤ 0) := by
    push_neg
    exact ⟨hP, by exact_mod_cast Nat.lt_of_lt_of_le Nat.zero_lt_one hm⟩
  rw [if_neg hc1, if_neg hc2]
  simp only [Int.toNat_natCast]
  exact pyRound_mono (le_of_lt hlt)

/-- C8 counterexample: for principal ₹1 (positive) at the source's default
rate 10.99 %, the rounded EMIs at 24 and 36 months are both 0, so the
24-month EMI is NOT strictly greater than the 36-month EMI. -/
theorem C8_counterexample :
    (0 : ℚ) < 1 ∧
    calculate_emi 1 24 10.99 = 0 ∧
    calculate_emi 1 36 10.99 = 0 := by
  refine ⟨by norm_num, ?_, ?_⟩ <;> with_unfolding_all decide

/-- C8 (amended): for every principal > 0 and rate > 0 the EXACT
reducing-balance EMI is strictly decreasing as the tenure increases, and the
whole-rupee `calculate_emi` is non-increasing; strictness of the rounded EMI
holds at typical amounts — e.g. for ₹5,00,000 at 11.5 % the 24-month EMI
strictly exceeds the 36-month EMI, which strictly exceeds the 60-month EMI —
but can collapse to equality for tiny principals. -/
theorem C8_emi_tenure_monotonicity :
    (∀ (P rate : ℚ) (m n : ℕ), 0 < P → 0 < rate → 1 ≤ m → m < n →
       emiExact P n rate < emiExact P m rate ∧
       calculate_emi P (n : ℤ) rate ≤ calculate_emi P (m : ℤ) rate) ∧
    (calculate_emi 500000 36 11.5 < calculate_emi 500000 24 11.5 ∧
     calculate_emi 500000 60 11.5 < calculate_emi 500000 36 11.5) := by
  refine ⟨fun P rate m n hP hr hm hmn =>
    ⟨emiExact_lt P rate hP hr hm hmn, calculate_emi_le P rate hP hr hm hmn⟩, ?_, ?_⟩
  · with_unfolding_all decide
  · with_unfolding_all decide

/-- C8 witness: the monotonicity statement applied at ₹5,00,000, 11.5 %,
tenures 36 < 60. -/
theorem C8_emi_tenure_monotonicity_witness :
    emiExact 500000 60 11.5 < emiExact 500000 36 11.5 ∧
    calculate_emi 500000 (60 : ℤ) 11.5 ≤ calculate_emi 500000 (36 : ℤ) 11.5 :=
  C8_emi_tenure_monotonicity.1 500000 11.5 36 60 (by norm_num) (by norm_num)
    (by norm_num) (by norm_num)

/-- C1: a message that matches the Compliance Guardrail (a bribery red flag)
still routes to the normal phase handler in every phase —
`process_ai_response` never consults `enforce_compliance`, so the turn does
not produce only the compliance hard-stop message. -/
theorem C1_compliance_not_consulted :
    MasterAgent.enforce_compliance "i will pay you extra for approval" =
      some (MasterAgent.alertPrefix ++ " **Compliance Alert:** I cannot accept any bribes, tips, or extra payments. All loan decisions are made by our automated underwriting system based purely on creditworthiness.") ∧
    (∀ phase : ConversationPhase,
       App.process_ai_response phase "i will pay you extra for approval" =
         App.TurnRoute.dispatch phase) := by
  constructor
  · decide
  · intro phase
    cases phase <;> decide

/-- Selecting a Tier-2 alternative path resets the attempt counter to 0 and
ends the turn (`return`), for every session and every detected path. -/
theorem interception_path_resets (sess : App.Phase4Session) (u : Customer)
    (input : String) (p : String)
    (h1 : sess.negotiation_active = true)
    (hp : NegotiatorAgent.detect_path_selection input = some p) :
    (App.negotiator_interception sess (some u) input).session.negotiation_attempts = 0 ∧
    (App.negotiator_interception sess (some u) input).handled = true := by
  simp only [App.negotiator_interception, h1, if_true, hp]
  split_ifs <;> exact ⟨rfl, rfl⟩

/-- The escalation-ladder step of the interception block: when negotiation is
active, no Tier-2 path or acceptance word is detected, and a live intent `d`
is present (any domain — the re-fire rule), the block fires: at attempt
counter 3 or more it emits the human-handoff message, freezes the counter and
sets the terminal flag; below 3 it emits the tier response for the current
attempt and increments the counter, recording `d` as the domain. -/
theorem interception_ladder_step (sess : App.Phase4Session) (u : Customer)
    (input : String) (d : String)
    (h1 : sess.negotiation_active = true)
    (h2 : sess.awaiting_renegotiation = false)
    (h3 : NegotiatorAgent.detect_path_selection input = none)
    (h4 : NegotiatorAgent.detect_negotiation_intent input = some d)
    (h5 : anyIn App.accept_words (pyLower input) = false) :
    (3 ≤ sess.negotiation_attempts →
       (App.negotiator_interception sess (some u) input).messages =
         [NegotiatorAgent.escalate_to_human u.name] ∧
       (App.negotiator_interception sess (some u) input).session.human_handoff = true ∧
       (App.negotiator_interception sess (some u) input).session.negotiation_active = false ∧
       (App.negotiator_interception sess (some u) input).session.negotiation_attempts =
         sess.negotiation_attempts ∧
       (App.negotiator_interception sess (some u) input).handled = true) ∧
    (sess.negotiation_attempts < 3 →
       (App.negotiator_interception sess (some u) input).messages =
         [NegotiatorAgent.negotiate d (App.buildContext sess u) sess.negotiation_attempts] ∧
       (App.negotiator_interception sess (some u) input).session.negotiation_attempts =
         sess.negotiation_attempts + 1 ∧
       (App.negotiator_interception sess (some u) input).session.negotiation_domain = some d ∧
       (App.negotiator_interception sess (some u) input).session.human_handoff =
         sess.human_handoff ∧
       (App.negotiator_interception sess (some u) input).handled = true) := by
  constructor
  · intro hge
    simp [App.negotiator_interception, h1, h2, h3, h4, h5, hge]
  · intro hlt
    have hn : ¬ 3 ≤ sess.negotiation_attempts := not_le.mpr hlt
    simp [App.negotiator_interception, h1, h2, h3, h4, h5, hn]

/-- The acceptance guard of the interception block: when negotiation is
active, no path is selected, an acceptance word is present and no live
intent is detected, the block clears `negotiation_active`, leaves the
attempt counter unchanged, and falls through to the normal flow. -/
theorem interception_acceptance_keeps_counter (sess : App.Phase4Session)
    (u : Customer) (input : String)
    (h1 : sess.negotiation_active = true)
    (h3 : NegotiatorAgent.detect_path_selection input = none)
    (h4 : NegotiatorAgent.detect_negotiation_intent input = none)
    (h5 : anyIn App.accept_words (pyLower input) = true) :
    (App.negotiator_interception sess (some u) input).session.negotiation_attempts =
      sess.negotiation_attempts ∧
    (App.negotiator_interception sess (some u) input).session.negotiation_active = false ∧
    (App.negotiator_interception sess (some u) input).handled = false := by
  simp [App.negotiator_interception, h1, h3, h4, h5]

/-- An example Phase-4 session in the middle of a rate negotiation
(negotiation active, domain RATE, two pushbacks already consumed). -/
def exampleSession : App.Phase4Session :=
  { negotiation_active := true, negotiation_attempts := 2
    negotiation_domain := some "RATE", human_handoff := false
    awaiting_renegotiation := false, awaiting_renegotiation_confirmed := false
    awaiting_salary_slip := false, interest_rate := some 11.5
    requested_amount := some 700000, loan_amount := some 700000
    safe_max_amount := some 500000, loan_purpose := some "wedding"
    conversation_phase := ConversationPhase.PHASE_4_NEEDS_ANALYSIS
    goldilocks_options := none }

/-- C2: for every negotiation domain (RATE, AMOUNT, EMI) and every context,
pushback attempts 0, 1 and 2 produce pairwise non-identical tier responses
(the progressively-more-concessive Tier 1/2/3 templates), and whenever the
ladder fires with the attempt counter at 3 — the fourth pushback — the block
emits the human-handoff message, sets the terminal `human_handoff` flag and
ends automated negotiation, regardless of which domain `d` is live;
below 3 it emits the tier response for the current attempt. -/
theorem C2_negotiation_ladder :
    (∀ ctx : NegotiatorAgent.NegotiationContext,
       (NegotiatorAgent.negotiate "RATE" ctx 0 ≠ NegotiatorAgent.negotiate "RATE" ctx 1 ∧
        NegotiatorAgent.negotiate "RATE" ctx 0 ≠ NegotiatorAgent.negotiate "RATE" ctx 2 ∧
        NegotiatorAgent.negotiate "RATE" ctx 1 ≠ NegotiatorAgent.negotiate "RATE" ctx 2) ∧
       (NegotiatorAgent.negotiate "AMOUNT" ctx 0 ≠ NegotiatorAgent.negotiate "AMOUNT" ctx 1 ∧
        NegotiatorAgent.negotiate "AMOUNT" ctx 0 ≠ NegotiatorAgent.negotiate "AMOUNT" ctx 2 ∧
        NegotiatorAgent.negotiate "AMOUNT" ctx 1 ≠ NegotiatorAgent.negotiate "AMOUNT" ctx 2) ∧
       (NegotiatorAgent.negotiate "EMI" ctx 0 ≠ NegotiatorAgent.negotiate "EMI" ctx 1 ∧
        NegotiatorAgent.negotiate "EMI" ctx 0 ≠ NegotiatorAgent.negotiate "EMI" ctx 2 ∧
        NegotiatorAgent.negotiate "EMI" ctx 1 ≠ NegotiatorAgent.negotiate "EMI" ctx 2)) ∧
    (∀ (sess : App.Phase4Session) (u : Customer) (input d : String),
       sess.negotiation_active = true →
       sess.awaiting_renegotiation = false →
       NegotiatorAgent.detect_path_selection input = none →
       NegotiatorAgent.detect_negotiation_intent input = some d →
       anyIn App.accept_words (pyLower input) = false →
       ((3 ≤ sess.negotiation_attempts →
          (App.negotiator_interception sess (some u) input).messages =
            [NegotiatorAgent.escalate_to_human u.name] ∧
          (App.negotiator_interception sess (some u) input).session.human_handoff = true ∧
          (App.negotiator_interception sess (some u) input).session.negotiation_active = false ∧
          (App.negotiator_interception sess (some u) input).session.negotiation_attempts =
            sess.negotiation_attempts ∧
          (App.negotiator_interception sess (some u) input).handled = true) ∧
        (sess.negotiation_attempts < 3 →
          (App.negotiator_interception sess (some u) input).messages =
            [NegotiatorAgent.negotiate d (App.buildContext sess u) sess.negotiation_attempts] ∧
          (App.negotiator_interception sess (some u) input).session.negotiation_attempts =
            sess.negotiation_attempts + 1 ∧
          (App.negotiator_interception sess (some u) input).session.negotiation_domain = some d ∧
          (App.negotiator_interception sess (some u) input).session.human_handoff =
            sess.human_handoff ∧
          (App.negotiator_interception sess (some u) input).handled = true))) := by
  constructor
  · intro ctx
    refine ⟨⟨?_, ?_, ?_⟩, ⟨?_, ?_, ?_⟩, ⟨?_, ?_, ?_⟩⟩
    · apply ne_of_nth_char 2
      show ("I completely understand, " ++ _).data.get? 2 ≠
        ("I hear you, " ++ _).data.get? 2
      rw [nth_of_head_lit _ _ 2 (by decide), nth_of_head_lit _ _ 2 (by decide)]
      decide
    · apply ne_of_nth_char 0
      show ("I completely understand, " ++ _).data.get? 0 ≠
        ("Alright, " ++ _).data.get? 0
      rw [nth_of_head_lit _ _ 0 (by decide), nth_of_head_lit _ _ 0 (by decide)]
      decide
    · apply ne_of_nth_char 0
      show ("I hear you, " ++ _).data.get? 0 ≠ ("Alright, " ++ _).data.get? 0
      rw [nth_of_head_lit _ _ 0 (by decide), nth_of_head_lit _ _ 0 (by decide)]
      decide
    · apply ne_of_nth_char 2
      show ("I completely relate to your need for the full amount, " ++ _).data.get? 2 ≠
        ("I respect your position, " ++ _).data.get? 2
      rw [nth_of_head_lit _ _ 2 (by decide), nth_of_head_lit _ _ 2 (by decide)]
      decide
    · apply ne_of_nth_char 0
      show ("I completely relate to your need for the full amount, " ++ _).data.get? 0 ≠
        ("Alright, " ++ _).data.get? 0
      rw [nth_of_head_lit _ _ 0 (by decide), nth_of_head_lit _ _ 0 (by decide)]
      decide
    · apply ne_of_nth_char 0
      show ("I respect your position, " ++ _).data.get? 0 ≠
        ("Alright, " ++ _).data.get? 0
      rw [nth_of_head_lit _ _ 0 (by decide), nth_of_head_lit _ _ 0 (by decide)]
      decide
    · apply ne_of_nth_char 0
      show ("That\x27s a very fair concern, " ++ _).data.get? 0 ≠
        ("Let me dig deeper on this for you, " ++ _).data.get? 0
      rw [nth_of_head_lit _ _ 0 (by decide), nth_of_head_lit _ _ 0 (by decide)]
      decide
    · apply ne_of_nth_char 0
      show ("That\x27s a very fair concern, " ++ _).data.get? 0 ≠
        ("Alright " ++ _).data.get? 0
      rw [nth_of_head_lit _ _ 0 (by decide), nth_of_head_lit _ _ 0 (by decide)]
      decide
    · apply ne_of_nth_char 0
      show ("Let me dig deeper on this for you, " ++ _).data.get? 0 ≠
        ("Alright " ++ _).data.get? 0
      rw [nth_of_head_lit _ _ 0 (by decide), nth_of_head_lit _ _ 0 (by decide)]
      decide
  · intro sess u input d h1 h2 h3 h4 h5
    exact interception_ladder_step sess u input d h1 h2 h3 h4 h5

/-- C2 witness: tier distinctness at a concrete context, and the handoff at
the fourth pushback of a concrete session (`"emi is too much"` re-fires the
ladder on the EMI domain with the counter already at 3). -/
theorem C2_negotiation_ladder_witness :
    (NegotiatorAgent.negotiate "EMI" (App.buildContext exampleSession raviProfile) 0 ≠
      NegotiatorAgent.negotiate "EMI" (App.buildContext exampleSession raviProfile) 1) ∧
    (App.negotiator_interception { exampleSession with negotiation_attempts := 3 }
        (some raviProfile) "emi is too much").messages =
      [NegotiatorAgent.escalate_to_human raviProfile.name] ∧
    (App.negotiator_interception { exampleSession with negotiation_attempts := 3 }
        (some raviProfile) "emi is too much").session.human_handoff = true :=
  ⟨(C2_negotiation_ladder.1 (App.buildContext exampleSession raviProfile)).2.2.1,
   ((C2_negotiation_ladder.2 { exampleSession with negotiation_attempts := 3 }
      raviProfile "emi is too much" "EMI" rfl rfl (by decide) (by decide)
      (by decide)).1 (by decide)).1,
   ((C2_negotiation_ladder.2 { exampleSession with negotiation_attempts := 3 }
      raviProfile "emi is too much" "EMI" rfl rfl (by decide) (by decide)
      (by decide)).1 (by decide)).2.1⟩

/-- C3 counterexample: with the example session mid-negotiation on the RATE
domain with 2 attempts consumed, the EMI pushback `"emi is too much"`
changes the live domain from RATE to EMI, yet the attempt counter moves to
3 — not back to 0; and the acceptance `"yes fine"` ends the negotiation but
leaves the counter at 2 — again not 0.  Both reset triggers asserted by the
claim (domain change, term acceptance) therefore fail in the code; only
Tier-2 path selection resets the counter. -/
theorem C3_counterexample :
    exampleSession.negotiation_domain = some "RATE" ∧
    exampleSession.negotiation_attempts = 2 ∧
    (App.negotiator_interception exampleSession (some raviProfile)
        "emi is too much").session.negotiation_domain = some "EMI" ∧
    (App.negotiator_interception exampleSession (some raviProfile)
        "emi is too much").session.negotiation_attempts = 3 ∧
    (App.negotiator_interception exampleSession (some raviProfile)
        "yes fine").session.negotiation_active = false ∧
    (App.negotiator_interception exampleSession (some raviProfile)
        "yes fine").session.negotiation_attempts = 2 := by
  refine ⟨rfl, rfl, ?_, ?_, ?_, ?_⟩ <;> decide

/-- C3 (amended): the negotiation attempt counter resets to 0 exactly when a
Tier-2 alternative path is selected; when the ladder fires on any live
intent `d` — including one that changes the negotiation domain — the counter
is incremented, not reset; and when the user accepts a term the negotiation
ends with the counter left unchanged. -/
theorem C3_attempt_counter_reset :
    (∀ (sess : App.Phase4Session) (u : Customer) (input p : String),
       sess.negotiation_active = true →
       NegotiatorAgent.detect_path_selection input = some p →
       (App.negotiator_interception sess (some u) input).session.negotiation_attempts = 0) ∧
    (∀ (sess : App.Phase4Session) (u : Customer) (input d : String),
       sess.negotiation_active = true →
       sess.awaiting_renegotiation = false →
       NegotiatorAgent.detect_path_selection input = none →
       NegotiatorAgent.detect_negotiation_intent input = some d →
       anyIn App.accept_words (pyLower input) = false →
       sess.negotiation_attempts < 3 →
       (App.negotiator_interception sess (some u) input).session.negotiation_attempts =
         sess.negotiation_attempts + 1) ∧
    (∀ (sess : App.Phase4Session) (u : Customer) (input : String),
       sess.negotiation_active = true →
       NegotiatorAgent.detect_path_selection input = none →
       NegotiatorAgent.detect_negotiation_intent input = none →
       anyIn App.accept_words (pyLower input) = true →
       (App.negotiator_interception sess (some u) input).session.negotiation_attempts =
         sess.negotiation_attempts) := by
  refine ⟨?_, ?_, ?_⟩
  · intro sess u input p h1 hp
    exact (interception_path_resets sess u input p h1 hp).1
  · intro sess u input d h1 h2 h3 h4 h5 hlt
    exact ((interception_ladder_step sess u input d h1 h2 h3 h4 h5).2 hlt).2.1
  · intro sess u input h1 h3 h4 h5
    exact (interception_acceptance_keeps_counter sess u input h1 h3 h4 h5).1

/-- C3 witness: the three behaviours at concrete inputs — `"path 3"` resets
the counter of the example session to 0, the domain-changing pushback
`"emi is too much"` raises it from 2 to 3, and the acceptance `"yes fine"`
leaves it at 2. -/
theorem C3_attempt_counter_reset_witness :
    (App.negotiator_interception exampleSession (some raviProfile)
        "path 3").session.negotiation_attempts = 0 ∧
    (App.negotiator_interception exampleSession (some raviProfile)
        "emi is too much").session.negotiation_attempts = 2 + 1 ∧
    (App.negotiator_interception exampleSession (some raviProfile)
        "yes fine").session.negotiation_attempts = 2 :=
  ⟨C3_attempt_counter_reset.1 exampleSession raviProfile "path 3" "PATH_3"
     rfl (by decide),
   C3_attempt_counter_reset.2.1 exampleSession raviProfile "emi is too much" "EMI"
     rfl rfl (by decide) (by decide) (by decide) (by decide),
   C3_attempt_counter_reset.2.2 exampleSession raviProfile "yes fine"
     rfl (by decide) (by decide) (by decide)⟩
